import Mathlib

/-!
Shallow embedding of the airline data-warehouse ETL pipeline
(`etl_pipeline.py`): the transform functions, the staging loader
(`load_to_staging`), the dimension/fact merger (`merge_to_dim_fact`)
and the orchestration in `main`, together with theorems about the
behaviour of those definitions.

Scalar cell values are modelled by `Val`; SQL NULL / pandas NaN is
`Val.null`.  Timestamps are modelled as an opaque tagged string
(`Val.dateV`): none of the properties below inspects the value of a
date, only whether it is NULL.  Numbers are modelled exactly
(`Int` / `ℚ`) rather than with machine floats.
-/

inductive Val : Type where
  | null : Val
  | intV : Int → Val
  | ratV : ℚ → Val
  | strV : String → Val
  | dateV : String → Val
deriving DecidableEq, Repr, Inhabited

/-- Numeric reading of a cell, used by SQL `CAST(x AS FLOAT)` and by the
pandas row mean.  Non-numeric cells read as `none` (the properties below
only ever feed numeric or NULL cells into these casts). -/
def valToRat : Val → Option ℚ
  | Val.intV i => some (i : ℚ)
  | Val.ratV q => some q
  | _ => none

/-- SQL equality predicate: `a = b` in an `ON` / join condition is true
only when both sides are non-NULL and equal (NULL never compares equal,
not even to NULL). -/
def sqlEq (a b : Val) : Bool :=
  decide (a ≠ Val.null ∧ b ≠ Val.null ∧ a = b)

/-- `CAST(x AS NVARCHAR(50))`, as used by the DimFlight merge to build
`FlightNumber` from the flight identifier. -/
def castNvarchar : Val → Val
  | Val.null => Val.null
  | Val.intV i => Val.strV (toString i)
  | Val.ratV q => Val.strV (toString q)
  | Val.strV s => Val.strV s
  | Val.dateV s => Val.strV s

/-- The DimSatisfaction merge's derived average: the SQL expression
`(CAST(c1 AS FLOAT) + ... + CAST(c14 AS FLOAT)) / 14.0` applied to the
list of the fourteen rating cells.  SQL arithmetic propagates NULL: if
any summand is NULL the whole expression is NULL. -/
def satAvg (vals : List Val) : Val :=
  match vals.mapM valToRat with
  | some qs => Val.ratV (qs.sum / 14)
  | none => Val.null

/-- pandas `DataFrame.mean(axis=1)` for one row: the mean over the
non-NaN cells among the selected columns; NaN when no cell is numeric. -/
def pandasRowMean (vals : List Val) : Val :=
  let qs := vals.filterMap valToRat
  if qs.length = 0 then Val.null else Val.ratV (qs.sum / (qs.length : ℚ))

/- ## Python / pandas string and coercion helpers -/

def pyWS (c : Char) : Bool :=
  c = ' ' || c = '\t' || c = '\n' || c = '\r' || c = '\x0b' || c = '\x0c'

/-- Python `str.strip()` (ASCII whitespace model). -/
def pyStrip (s : String) : String :=
  String.mk (((s.toList.dropWhile pyWS).reverse.dropWhile pyWS).reverse)

def pyTitleGo : Bool → List Char → List Char
  | _, [] => []
  | prev, c :: rest =>
      if c.isAlpha then
        (if prev then c.toLower else c.toUpper) :: pyTitleGo true rest
      else c :: pyTitleGo false rest

/-- Python `str.title()` (ASCII model): first letter of each alphabetic
run uppercased, the rest lowercased. -/
def pyTitle (s : String) : String :=
  String.mk (pyTitleGo false s.toList)

/-- A pandas `.str` accessor operation: applies to string cells, yields
NaN on every non-string cell. -/
def strOpVal (f : String → String) : Val → Val
  | Val.strV s => Val.strV (f s)
  | _ => Val.null

def parseDigits : List Char → Option Nat
  | [] => none
  | cs => cs.foldl (fun acc c =>
      match acc with
      | none => none
      | some n => if c.isDigit then some (n * 10 + (c.toNat - 48)) else none)
      (some 0)

def parseIntStr (s : String) : Option Int :=
  match s.toList with
  | '-' :: rest => (parseDigits rest).map (fun n => -(n : Int))
  | cs => (parseDigits cs).map (fun n => (n : Int))

/-- `pd.to_numeric(errors='coerce')`: numeric cells kept, integer-literal
strings parsed, anything else coerced to NaN. -/
def to_numeric : Val → Val
  | Val.intV i => Val.intV i
  | Val.ratV q => Val.ratV q
  | Val.strV s => match parseIntStr (pyStrip s) with
      | some i => Val.intV i
      | none => Val.null
  | _ => Val.null

/-- `pd.to_datetime(errors='coerce')`: timestamps are opaque tagged
values; strings are tagged as timestamps, NULL stays NULL, and other
cells coerce to NaT.  No property below inspects a date's value. -/
def to_datetime : Val → Val
  | Val.dateV s => Val.dateV s
  | Val.strV s => Val.dateV s
  | _ => Val.null

/-- pandas `col > 0` on one cell: false for NaN. -/
def valGtZero : Val → Bool
  | Val.intV i => decide (0 < i)
  | Val.ratV q => decide (0 < q)
  | _ => false

/- ## DataFrames (column list plus positionally aligned rows) -/

structure DataFrame where
  cols : List String
  rows : List (List Val)
deriving DecidableEq, Repr, Inhabited

/-- Value of column `c` in a row aligned with `cols` (NULL if absent). -/
def dfGet (cols : List String) (r : List Val) (c : String) : Val :=
  ((cols.zip r).lookup c).getD Val.null

/-- Overwrite column `c` of one aligned row. -/
def setRowVal (cols : List String) (r : List Val) (c : String) (v : Val) : List Val :=
  (cols.zip r).map (fun q => if q.fst = c then v else q.snd)

/-- Apply `f` to every cell of column `c` (pandas `df[c] = df[c].map(f)`). -/
def mapCol (df : DataFrame) (c : String) (f : Val → Val) : DataFrame :=
  { cols := df.cols,
    rows := df.rows.map (fun r => setRowVal df.cols r c (f (dfGet df.cols r c))) }

/-- pandas `df[c] = vs`: overwrite column `c` in place when it exists,
otherwise append it on the right. -/
def setCol (df : DataFrame) (c : String) (vs : List Val) : DataFrame :=
  if c ∈ df.cols then
    { cols := df.cols,
      rows := (df.rows.zip vs).map (fun p => setRowVal df.cols p.fst c p.snd) }
  else
    { cols := df.cols ++ [c], rows := (df.rows.zip vs).map (fun p => p.fst ++ [p.snd]) }

/-- Keep only the columns that appear in `keep`, in the frame's own
column order (pandas `df[[c for c in df.columns if c in keep]]`). -/
def projectCols (keep : List String) (df : DataFrame) : DataFrame :=
  { cols := df.cols.filter (fun c => decide (c ∈ keep)),
    rows := df.rows.map (fun r =>
      ((df.cols.zip r).filter (fun p => decide (p.fst ∈ keep))).map Prod.snd) }

/-- Drop one column (used to state projection safety). -/
def dropColumn (df : DataFrame) (c : String) : DataFrame :=
  { cols := df.cols.filter (fun c0 => decide (c0 ≠ c)),
    rows := df.rows.map (fun r =>
      ((df.cols.zip r).filter (fun p => decide (p.fst ≠ c))).map Prod.snd) }

/-- Keep the rows whose column `c` satisfies `p`. -/
def filterRowsBy (df : DataFrame) (c : String) (p : Val → Bool) : DataFrame :=
  { cols := df.cols, rows := df.rows.filter (fun r => p (dfGet df.cols r c)) }

def dedupKeyGo (cols : List String) (c : String) :
    List Val → List (List Val) → List (List Val)
  | _, [] => []
  | seen, r :: rest =>
      let k := dfGet cols r c
      if k ∈ seen then dedupKeyGo cols c seen rest
      else r :: dedupKeyGo cols c (k :: seen) rest

/-- `df.drop_duplicates(subset=[c], keep='first')` (pandas treats NaN as
equal to NaN here, as does `Val.null = Val.null`). -/
def dedupByCol (df : DataFrame) (c : String) : DataFrame :=
  { cols := df.cols, rows := dedupKeyGo df.cols c [] df.rows }

/-- Every row has exactly one cell per column. -/
@[reducible] def dfWF (df : DataFrame) : Prop :=
  ∀ r ∈ df.rows, r.length = df.cols.length

/- ## Transform functions (one per source feed) -/

/-- `transform_oltp1_customers`: title-case `Name` when present, then
drop duplicate `CustomerID` rows (falling back to the first column when
`CustomerID` is absent). -/
def transform_oltp1_customers (df0 : DataFrame) : DataFrame :=
  let df := if "Name" ∈ df0.cols then
      mapCol df0 "Name" (strOpVal (fun s => pyTitle (pyStrip s))) else df0
  let idCol := if "CustomerID" ∈ df.cols then "CustomerID" else df.cols.headD ""
  dedupByCol df idCol

/-- `transform_oltp1_bookings`: coerce `BookingDate`, drop rows with a
NULL `CustomerID` or `FlightID`, then drop duplicate `BookingID` rows. -/
def transform_oltp1_bookings (df0 : DataFrame) : DataFrame :=
  let df := if "BookingDate" ∈ df0.cols then mapCol df0 "BookingDate" to_datetime else df0
  let req := ["CustomerID", "FlightID"].filter (fun c => decide (c ∈ df.cols))
  let df := if req.isEmpty then df else
      { cols := df.cols,
        rows := df.rows.filter (fun r => req.all (fun c => !(dfGet df.cols r c == Val.null))) }
  let idCol := if "BookingID" ∈ df.cols then "BookingID" else df.cols.headD ""
  dedupByCol df idCol

/-- `transform_oltp1_payments`: title-case `PaymentMethod`, keep rows
with numeric `Amount > 0`, coerce `PaymentDate`.  Note: unlike the other
relational transforms, this one performs no duplicate removal. -/
def transform_oltp1_payments (df0 : DataFrame) : DataFrame :=
  let df := if "PaymentMethod" ∈ df0.cols then
      mapCol df0 "PaymentMethod" (strOpVal (fun s => pyTitle (pyStrip s))) else df0
  let df := if "Amount" ∈ df.cols then
      filterRowsBy (mapCol df "Amount" to_numeric) "Amount" valGtZero else df
  if "PaymentDate" ∈ df.cols then mapCol df "PaymentDate" to_datetime else df

/-- The alias loop of `transform_oltp2_aircrafts` (`for possible_id in
[...]: if possible_id in df.columns: id_col = possible_id; break`). -/
def aircraftIdLoop (cols : List String) : List String → Option String
  | [] => none
  | a :: rest => if a ∈ cols then some a else aircraftIdLoop cols rest

/-- The duplicate-removal key choice of `transform_oltp2_aircrafts`:
the loop runs over `['AircraftID', 'PlaneID', 'ID']` in that order
(`None` when no alias is present). -/
def aircraftIdColChoice (cols : List String) : Option String :=
  aircraftIdLoop cols ["AircraftID", "PlaneID", "ID"]

/-- The resolution rule the spec states for alias lists: the first alias
in alias-list order that is present among the actual columns. -/
def firstAliasIn (aliases : List String) (cols : List String) : Option String :=
  aliases.find? (fun c => decide (c ∈ cols))

/-- `transform_oltp2_aircrafts`: uppercase `Model`, keep rows with
numeric `Capacity > 0`, then drop duplicates on the resolved id column
(no deduplication when no alias resolves). -/
def transform_oltp2_aircrafts (df0 : DataFrame) : DataFrame :=
  let df := if "Model" ∈ df0.cols then
      mapCol df0 "Model" (strOpVal (fun s => (pyStrip s).toUpper)) else df0
  let df := if "Capacity" ∈ df.cols then
      filterRowsBy (mapCol df "Capacity" to_numeric) "Capacity" valGtZero else df
  match aircraftIdColChoice df.cols with
  | some idCol => dedupByCol df idCol
  | none => df

/-- `transform_oltp2_flights`: uppercase `FlightNumber`, coerce the two
time columns, drop duplicate `FlightID` rows (first-column fallback). -/
def transform_oltp2_flights (df0 : DataFrame) : DataFrame :=
  let df := if "FlightNumber" ∈ df0.cols then
      mapCol df0 "FlightNumber" (strOpVal (fun s => (pyStrip s).toUpper)) else df0
  let df := if "DepartureTime" ∈ df.cols then mapCol df "DepartureTime" to_datetime else df
  let df := if "ArrivalTime" ∈ df.cols then mapCol df "ArrivalTime" to_datetime else df
  let idCol := if "FlightID" ∈ df.cols then "FlightID" else df.cols.headD ""
  dedupByCol df idCol

/-- `transform_oltp2_routes`: title-case `Origin` and `Destination`,
keep rows with numeric `Distance > 0`, drop duplicate `RouteID` rows. -/
def transform_oltp2_routes (df0 : DataFrame) : DataFrame :=
  let df := if "Origin" ∈ df0.cols then
      mapCol df0 "Origin" (strOpVal (fun s => pyTitle (pyStrip s))) else df0
  let df := if "Destination" ∈ df.cols then
      mapCol df "Destination" (strOpVal (fun s => pyTitle (pyStrip s))) else df
  let df := if "Distance" ∈ df.cols then
      filterRowsBy (mapCol df "Distance" to_numeric) "Distance" valGtZero else df
  let idCol := if "RouteID" ∈ df.cols then "RouteID" else df.cols.headD ""
  dedupByCol df idCol

/-- `transform_api`: normalise the column names and drop duplicate
`flight_iata` rows when that column exists; empty frames pass through. -/
def transform_api (df0 : DataFrame) : DataFrame :=
  if df0.rows.isEmpty then df0 else
  let df : DataFrame :=
    { cols := df0.cols.map (fun c => ((pyStrip c).toLower).replace " " "_"),
      rows := df0.rows }
  if "flight_iata" ∈ df.cols then dedupByCol df "flight_iata" else df

/-- The fourteen survey rating columns, by their CSV header names, in
the order listed in `transform_csv`. -/
def csvRatingCols : List String :=
  ["Inflight wifi service", "Departure/Arrival time convenient", "Ease of Online booking",
   "Gate location", "Food and drink", "Online boarding", "Seat comfort",
   "Inflight entertainment", "On-board service", "Leg room service", "Baggage handling",
   "Checkin service", "Inflight service", "Cleanliness"]

def csvColumnMapping : List (String × String) :=
  [("id", "CustomerID"), ("Type of Travel", "TypeOfTravel"), ("Class", "Class"),
   ("Flight Distance", "FlightDistance"), ("Satisfaction", "Satisfaction"),
   ("AverageRating", "AverageRating")]

def csvRequiredCols : List String :=
  ["CustomerID", "TypeOfTravel", "Class", "FlightDistance", "Satisfaction", "AverageRating"]

/-- `transform_csv`: drop `Unnamed` index columns, title-case the
`satisfaction` column into `Satisfaction`, compute `AverageRating` as
the pandas row mean over whichever of the fourteen rating columns exist,
rename via the column mapping, pad absent required columns with NULL and
select the required columns in order. -/
def transform_csv (df0 : DataFrame) : DataFrame :=
  let keep := df0.cols.filter (fun c => !(c.startsWith "Unnamed"))
  let df := projectCols keep df0
  let df := if "satisfaction" ∈ df.cols then
      setCol df "Satisfaction"
        (df.rows.map (fun r => strOpVal pyTitle (dfGet df.cols r "satisfaction"))) else df
  let existing := csvRatingCols.filter (fun c => decide (c ∈ df.cols))
  let df := if existing.isEmpty then df else
      setCol df "AverageRating"
        (df.rows.map (fun r => pandasRowMean (existing.map (fun c => dfGet df.cols r c))))
  let present := csvColumnMapping.filter (fun p => decide (p.fst ∈ df.cols))
  let dfm : DataFrame :=
    { cols := present.map Prod.snd,
      rows := df.rows.map (fun r => present.map (fun p => dfGet df.cols r p.fst)) }
  let missing := csvRequiredCols.filter (fun c => decide (c ∉ dfm.cols))
  let dfm := missing.foldl (fun d c => setCol d c (d.rows.map (fun _ => Val.null))) dfm
  { cols := csvRequiredCols,
    rows := dfm.rows.map (fun r => csvRequiredCols.map (fun c => dfGet dfm.cols r c)) }

/- ## Staging tables and the staging loader -/

/-- A staging table: its live column list (as returned by the catalog
query `get_table_columns`) and its rows, positionally aligned. -/
structure Table where
  cols : List String
  rows : List (List Val)
deriving DecidableEq, Repr, Inhabited

/-- Value of column `c` in a stored row (NULL when absent, as in SQL). -/
def Table.get (t : Table) (r : List Val) (c : String) : Val :=
  ((t.cols.zip r).lookup c).getD Val.null

/-- A record as it is named at `INSERT` time: explicit column names,
one per value. -/
def Rec : Type := List (String × Val)

instance : DecidableEq Rec := by
  unfold Rec
  infer_instance

instance : Inhabited Rec := ⟨([] : List (String × Val))⟩

/-- The error raised when a single record fails to insert during a
staging load: the table, the offending record and the cause. -/
structure LoadError where
  table : String
  record : Rec
  msg : String
deriving DecidableEq, Inhabited

structure LoadResult where
  table : Table
  dropped : List String
deriving DecidableEq, Inhabited

/-- A stored SQL row: the named record widened to the full destination
column list, unnamed columns NULL. -/
def widenRec (dbCols : List String) (r : Rec) : List Val :=
  dbCols.map (fun c => ((List.lookup c r)).getD Val.null)

def insertLoopGo (insertOk : Rec → Option String) (tableName : String)
    (dbCols : List String) : List Rec → Except LoadError (List (List Val))
  | [] => Except.ok []
  | r :: rest =>
      match insertOk r with
      | some msg => Except.error ⟨tableName, r, msg⟩
      | none => (insertLoopGo insertOk tableName dbCols rest).map
          (fun tl => widenRec dbCols r :: tl)

/-- The records `load_to_staging` presents to the database: the frame is
projected to the destination's columns and each row names its own
columns explicitly. -/
def stagedRecords (dbCols : List String) (df : DataFrame) : List Rec :=
  let proj := if dbCols.isEmpty then df else projectCols dbCols df
  proj.rows.map (fun r => proj.cols.zip r)

/-- `load_to_staging`: query the destination columns, project the frame
to them (recording the dropped columns as a warning), clear the table
and insert every record; the first failing record aborts the load and is
propagated inside the error.  `insertOk` is the database's verdict on a
single record (`none` = accepted), an external collaborator. -/
def load_to_staging (insertOk : Rec → Option String) (dbCols : List String)
    (tableName : String) (df : DataFrame) : Except LoadError LoadResult :=
  let dropped := if dbCols.isEmpty then []
    else df.cols.filter (fun c => decide (c ∉ dbCols))
  let tabCols := if dbCols.isEmpty then df.cols else dbCols
  (insertLoopGo insertOk tableName tabCols (stagedRecords dbCols df)).map
    (fun rows => ⟨⟨tabCols, rows⟩, dropped⟩)

/- ## Warehouse target rows -/

structure CustomerRow where
  customerID : Val
  name : Val
deriving DecidableEq, Repr, Inhabited

structure AircraftRow where
  aircraftID : Val
  model : Val
  capacity : Val
  manufactureYear : Val
deriving DecidableEq, Repr, Inhabited

structure RouteRow where
  routeID : Val
  origin : Val
  destination : Val
  distance : Val
deriving DecidableEq, Repr, Inhabited

structure FlightRow where
  flightID : Val
  flightNumber : Val
  departureTime : Val
  arrivalTime : Val
deriving DecidableEq, Repr, Inhabited

structure PaymentRow where
  paymentID : Val
  paymentMethod : Val
  amount : Val
  paymentDate : Val
deriving DecidableEq, Repr, Inhabited

structure SatisfactionRow where
  customerID : Val
  typeOfTravel : Val
  klass : Val
  flightDistance : Val
  satisfaction : Val
  averageRating : Val
deriving DecidableEq, Repr, Inhabited

structure FactBookingRow where
  bookingID : Val
  customerID : Val
  flightID : Val
  routeID : Val
  aircraftID : Val
  paymentID : Val
  satisfactionKey : Val
  bookingDate : Val
deriving DecidableEq, Repr, Inhabited

structure Warehouse where
  stgCustomers : Table
  stgBookings : Table
  stgPayments : Table
  stgAircrafts : Table
  stgFlights : Table
  stgRoutes : Table
  stgSatisfaction : Table
  stgApiFlights : Table
  dimCustomer : List CustomerRow
  dimAircraft : List AircraftRow
  dimRoute : List RouteRow
  dimFlight : List FlightRow
  dimPayment : List PaymentRow
  dimSatisfaction : List SatisfactionRow
  factBooking : List FactBookingRow
deriving DecidableEq, Inhabited

/- ## The merger -/

/-- `MERGE ... WHEN NOT MATCHED THEN INSERT` with no matched clause:
every source row whose business key matches no target row (as of the
start of the statement) is inserted. -/
def upsertInsert {σ ρ : Type} (keyOf : ρ → Val) (srcKey : σ → Val) (mk : σ → ρ)
    (src : List σ) (tgt : List ρ) : List ρ :=
  tgt ++ (src.filter (fun s => !(tgt.any (fun t => sqlEq (keyOf t) (srcKey s))))).map mk

/-- `MERGE` with both a matched-update and a not-matched-insert clause
(as used for DimCustomer). -/
def upsertUpdate {σ ρ : Type} (keyOf : ρ → Val) (srcKey : σ → Val) (mk : σ → ρ)
    (upd : ρ → σ → ρ) (src : List σ) (tgt : List ρ) : List ρ :=
  (tgt.map (fun t =>
    match src.find? (fun s => sqlEq (keyOf t) (srcKey s)) with
    | some s => upd t s
    | none => t)) ++
  (src.filter (fun s => !(tgt.any (fun t => sqlEq (keyOf t) (srcKey s))))).map mk

/-- The DimCustomer merge: key `CustomerID`, update `Name` on match,
insert `(CustomerID, Name)` otherwise.  The statement fails when a
referenced column is missing from the staging table. -/
def mergeDimCustomer (stg : Table) (dim : List CustomerRow) :
    Except String (List CustomerRow) :=
  if "CustomerID" ∈ stg.cols ∧ "Name" ∈ stg.cols then
    Except.ok (upsertUpdate CustomerRow.customerID
      (fun r => stg.get r "CustomerID")
      (fun r => ⟨stg.get r "CustomerID", stg.get r "Name"⟩)
      (fun t r => { t with name := stg.get r "Name" })
      stg.rows dim)
  else Except.error "Invalid column name in Stg_Customers"

/-- The aircraft-id resolution of the DimAircraft merge: `PlaneID` when
present, else `AircraftID` (without checking that it is present). -/
def mergeAircraftIdCol (cols : List String) : String :=
  if "PlaneID" ∈ cols then "PlaneID" else "AircraftID"

/-- The DimAircraft merge: insert-only on the resolved aircraft id. -/
def mergeDimAircraft (stg : Table) (dim : List AircraftRow) :
    Except String (List AircraftRow) :=
  let idCol := mergeAircraftIdCol stg.cols
  if idCol ∈ stg.cols ∧ "Model" ∈ stg.cols ∧ "Capacity" ∈ stg.cols ∧
      "ManufactureYear" ∈ stg.cols then
    Except.ok (upsertInsert AircraftRow.aircraftID
      (fun r => stg.get r idCol)
      (fun r => ⟨stg.get r idCol, stg.get r "Model", stg.get r "Capacity",
                 stg.get r "ManufactureYear"⟩)
      stg.rows dim)
  else Except.error "Invalid column name in Stg_Aircrafts"

/-- The route-id resolution of the DimRoute merge: `RouteID` when
present, else the staging table's positionally first column (`none`
models the `IndexError` of indexing an empty column list). -/
def mergeRouteIdCol (cols : List String) : Option String :=
  if "RouteID" ∈ cols then some "RouteID" else cols.head?

/-- The origin resolution of the DimRoute merge: `Source` when present,
else `Origin` (without checking that it is present). -/
def mergeOriginCol (cols : List String) : String :=
  if "Source" ∈ cols then "Source" else "Origin"

/-- The DimRoute merge: insert-only on the resolved route id. -/
def mergeDimRoute (stg : Table) (dim : List RouteRow) :
    Except String (List RouteRow) :=
  match mergeRouteIdCol stg.cols with
  | none => Except.error "list index out of range"
  | some idCol =>
    let originCol := mergeOriginCol stg.cols
    if originCol ∈ stg.cols ∧ "Destination" ∈ stg.cols ∧ "Distance" ∈ stg.cols then
      Except.ok (upsertInsert RouteRow.routeID
        (fun r => stg.get r idCol)
        (fun r => ⟨stg.get r idCol, stg.get r originCol, stg.get r "Destination",
                   stg.get r "Distance"⟩)
        stg.rows dim)
    else Except.error "Invalid column name in Stg_Routes"

/-- The flight-id resolution of the DimFlight merge: `FlightID` when
present, else the positionally first column. -/
def mergeFlightIdCol (cols : List String) : Option String :=
  if "FlightID" ∈ cols then some "FlightID" else cols.head?

/-- The DimFlight merge: insert-only on the resolved flight id, with
`FlightNumber` derived as `CAST(id AS NVARCHAR(50))`. -/
def mergeDimFlight (stg : Table) (dim : List FlightRow) :
    Except String (List FlightRow) :=
  match mergeFlightIdCol stg.cols with
  | none => Except.error "list index out of range"
  | some idCol =>
    if "DepartureTime" ∈ stg.cols ∧ "ArrivalTime" ∈ stg.cols then
      Except.ok (upsertInsert FlightRow.flightID
        (fun r => stg.get r idCol)
        (fun r => ⟨stg.get r idCol, castNvarchar (stg.get r idCol),
                   stg.get r "DepartureTime", stg.get r "ArrivalTime"⟩)
        stg.rows dim)
    else Except.error "Invalid column name in Stg_Flights"

/-- The payment-id resolution of the DimPayment merge. -/
def mergePaymentIdCol (cols : List String) : Option String :=
  if "PaymentID" ∈ cols then some "PaymentID" else cols.head?

/-- The DimPayment merge: insert-only on the resolved payment id, with
`Method` / `Date` preferred over `PaymentMethod` / `PaymentDate`. -/
def mergeDimPayment (stg : Table) (dim : List PaymentRow) :
    Except String (List PaymentRow) :=
  match mergePaymentIdCol stg.cols with
  | none => Except.error "list index out of range"
  | some idCol =>
    let methodCol := if "Method" ∈ stg.cols then "Method" else "PaymentMethod"
    let dateCol := if "Date" ∈ stg.cols then "Date" else "PaymentDate"
    if methodCol ∈ stg.cols ∧ "Amount" ∈ stg.cols ∧ dateCol ∈ stg.cols then
      Except.ok (upsertInsert PaymentRow.paymentID
        (fun r => stg.get r idCol)
        (fun r => ⟨stg.get r idCol, stg.get r methodCol, stg.get r "Amount",
                   stg.get r dateCol⟩)
        stg.rows dim)
    else Except.error "Invalid column name in Stg_Payments"

/-- The fourteen survey rating columns by their SQL names, in the order
summed by the DimSatisfaction merge. -/
def sqlRatingCols : List String :=
  ["InflightWifiService", "DepartureArrivalConvenient", "EaseOfOnlineBooking",
   "GateLocation", "FoodAndDrink", "OnlineBoarding", "SeatComfort",
   "InflightEntertainment", "OnboardService", "LegRoomService", "BaggageHandling",
   "CheckinService", "InflightService", "Cleanliness"]

/-- The DimSatisfaction merge: its source subquery reads the literal
column names (the computed `satisfaction_id_col` is unused by the SQL)
and derives `AverageRating` via `satAvg` over the fourteen rating
columns; insert-only on `CustomerID`. -/
def mergeDimSatisfaction (stg : Table) (dim : List SatisfactionRow) :
    Except String (List SatisfactionRow) :=
  if "CustomerID" ∈ stg.cols ∧ "TypeOfTravel" ∈ stg.cols ∧ "Class" ∈ stg.cols ∧
      "FlightDistance" ∈ stg.cols ∧ "Satisfaction" ∈ stg.cols ∧
      (∀ c ∈ sqlRatingCols, c ∈ stg.cols) then
    Except.ok (upsertInsert SatisfactionRow.customerID
      (fun r => stg.get r "CustomerID")
      (fun r => ⟨stg.get r "CustomerID", stg.get r "TypeOfTravel", stg.get r "Class",
                 stg.get r "FlightDistance", stg.get r "Satisfaction",
                 satAvg (sqlRatingCols.map (fun c => stg.get r c))⟩)
      stg.rows dim)
  else Except.error "Invalid column name in Stg_CustomerSatisfaction"

/-- The booking-id resolution of the FactBooking merge. -/
def mergeBookingIdCol (cols : List String) : Option String :=
  if "BookingID" ∈ cols then some "BookingID" else cols.head?

/-- The booking-date resolution of the FactBooking merge. -/
def mergeBookingDateCol (cols : List String) : String :=
  if "Date" ∈ cols then "Date" else "BookingDate"

/-- The left-outer join of the FactBooking merge's source subquery:
each booking row paired with every flight row whose `FlightID` equals
the booking's (SQL equality), or with `none` when no flight matches. -/
def bookingFlightJoin (stgB stgF : Table) : List (List Val × Option (List Val)) :=
  stgB.rows.flatMap (fun b =>
    let ms := stgF.rows.filter (fun f => sqlEq (stgB.get b "FlightID") (stgF.get f "FlightID"))
    match ms with
    | [] => [(b, none)]
    | _ => ms.map (fun f => (b, some f)))

/-- The FactBooking merge: source is the bookings staging left-joined to
the flights staging; insert-only on `BookingID`.  `PaymentID` is fed the
booking's own id and `SatisfactionKey` the booking's `CustomerID` (the
source's degenerate alias conditionals always pick `CustomerID` and
`FlightID` for those two fields). -/
def mergeFactBooking (stgB stgF : Table) (fact : List FactBookingRow) :
    Except String (List FactBookingRow) :=
  match mergeBookingIdCol stgB.cols with
  | none => Except.error "list index out of range"
  | some bidCol =>
    let dateCol := mergeBookingDateCol stgB.cols
    if "CustomerID" ∈ stgB.cols ∧ "FlightID" ∈ stgB.cols ∧ dateCol ∈ stgB.cols ∧
        "FlightID" ∈ stgF.cols ∧ "RouteID" ∈ stgF.cols ∧ "PlaneID" ∈ stgF.cols then
      Except.ok (upsertInsert FactBookingRow.bookingID
        (fun p => stgB.get p.fst bidCol)
        (fun p => ⟨stgB.get p.fst bidCol, stgB.get p.fst "CustomerID",
                   stgB.get p.fst "FlightID",
                   (p.snd.map (fun f => stgF.get f "RouteID")).getD Val.null,
                   (p.snd.map (fun f => stgF.get f "PlaneID")).getD Val.null,
                   stgB.get p.fst bidCol, stgB.get p.fst "CustomerID",
                   stgB.get p.fst dateCol⟩)
        (bookingFlightJoin stgB stgF) fact)
    else Except.error "Invalid column name in FactBooking merge"

/- Named forms of the seven merges' upsert bodies, as they resolve under
the standard staging schemas (reused throughout the theorems). -/

def custUpsert (stg : Table) (dim : List CustomerRow) : List CustomerRow :=
  upsertUpdate CustomerRow.customerID
    (fun r => stg.get r "CustomerID")
    (fun r => ⟨stg.get r "CustomerID", stg.get r "Name"⟩)
    (fun t r => { t with name := stg.get r "Name" }) stg.rows dim

def airUpsert (stg : Table) (dim : List AircraftRow) : List AircraftRow :=
  upsertInsert AircraftRow.aircraftID
    (fun r => stg.get r "AircraftID")
    (fun r => ⟨stg.get r "AircraftID", stg.get r "Model", stg.get r "Capacity",
               stg.get r "ManufactureYear"⟩) stg.rows dim

def routeUpsert (stg : Table) (dim : List RouteRow) : List RouteRow :=
  upsertInsert RouteRow.routeID
    (fun r => stg.get r "RouteID")
    (fun r => ⟨stg.get r "RouteID", stg.get r "Origin", stg.get r "Destination",
               stg.get r "Distance"⟩) stg.rows dim

def flightUpsert (stg : Table) (dim : List FlightRow) : List FlightRow :=
  upsertInsert FlightRow.flightID
    (fun r => stg.get r "FlightID")
    (fun r => ⟨stg.get r "FlightID", castNvarchar (stg.get r "FlightID"),
               stg.get r "DepartureTime", stg.get r "ArrivalTime"⟩) stg.rows dim

def payUpsert (stg : Table) (dim : List PaymentRow) : List PaymentRow :=
  upsertInsert PaymentRow.paymentID
    (fun r => stg.get r "PaymentID")
    (fun r => ⟨stg.get r "PaymentID", stg.get r "PaymentMethod", stg.get r "Amount",
               stg.get r "PaymentDate"⟩) stg.rows dim

def satUpsert (stg : Table) (dim : List SatisfactionRow) : List SatisfactionRow :=
  upsertInsert SatisfactionRow.customerID
    (fun r => stg.get r "CustomerID")
    (fun r => ⟨stg.get r "CustomerID", stg.get r "TypeOfTravel", stg.get r "Class",
               stg.get r "FlightDistance", stg.get r "Satisfaction",
               satAvg (sqlRatingCols.map (fun c => stg.get r c))⟩) stg.rows dim

def factUpsert (stgB stgF : Table) (fact : List FactBookingRow) : List FactBookingRow :=
  upsertInsert FactBookingRow.bookingID
    (fun p => stgB.get p.fst "BookingID")
    (fun p => ⟨stgB.get p.fst "BookingID", stgB.get p.fst "CustomerID",
               stgB.get p.fst "FlightID",
               (p.snd.map (fun f => stgF.get f "RouteID")).getD Val.null,
               (p.snd.map (fun f => stgF.get f "PlaneID")).getD Val.null,
               stgB.get p.fst "BookingID", stgB.get p.fst "CustomerID",
               stgB.get p.fst "BookingDate"⟩) (bookingFlightJoin stgB stgF) fact

/-- One `try/except` block of `merge_to_dim_fact`: a failed merge leaves
the target unchanged and logs the table name with the cause. -/
def catchStep {α : Type} (name : String) (res : Except String α) (old : α) :
    α × List (String × String) :=
  match res with
  | Except.ok a => (a, [])
  | Except.error e => (old, [(name, e)])

/-- `merge_to_dim_fact`: runs the seven per-table merges in order, each
inside its own `try/except`; failures are logged and do not stop the
following merges.  Returns the updated warehouse and the error log. -/
def merge_to_dim_fact (W : Warehouse) : Warehouse × List (String × String) :=
  let rc := catchStep "DimCustomer" (mergeDimCustomer W.stgCustomers W.dimCustomer) W.dimCustomer
  let ra := catchStep "DimAircraft" (mergeDimAircraft W.stgAircrafts W.dimAircraft) W.dimAircraft
  let rr := catchStep "DimRoute" (mergeDimRoute W.stgRoutes W.dimRoute) W.dimRoute
  let rf := catchStep "DimFlight" (mergeDimFlight W.stgFlights W.dimFlight) W.dimFlight
  let rp := catchStep "DimPayment" (mergeDimPayment W.stgPayments W.dimPayment) W.dimPayment
  let rs := catchStep "DimSatisfaction"
      (mergeDimSatisfaction W.stgSatisfaction W.dimSatisfaction) W.dimSatisfaction
  let rb := catchStep "FactBooking"
      (mergeFactBooking W.stgBookings W.stgFlights W.factBooking) W.factBooking
  ({ W with dimCustomer := rc.fst, dimAircraft := ra.fst, dimRoute := rr.fst,
            dimFlight := rf.fst, dimPayment := rp.fst, dimSatisfaction := rs.fst,
            factBooking := rb.fst },
   rc.snd ++ ra.snd ++ rr.snd ++ rf.snd ++ rp.snd ++ rs.snd ++ rb.snd)

/- ## The pipeline orchestrator (`main`) -/

/-- The extracted source batches handed to the transforms (extraction
itself — relational queries, HTTP, file parsing — is an external
collaborator). -/
structure Sources where
  customers : DataFrame
  bookings : DataFrame
  payments : DataFrame
  aircrafts : DataFrame
  flights : DataFrame
  routes : DataFrame
  api : DataFrame
  csv : DataFrame
deriving DecidableEq, Inhabited

/-- The staging tables produced by one run's load stage (none of the
loads reads the warehouse's current contents, only the catalog). -/
structure StagedBatch where
  customers : Table
  bookings : Table
  payments : Table
  aircrafts : Table
  flights : Table
  routes : Table
  satisfaction : Table
  apiOpt : Option Table
deriving DecidableEq, Inhabited

/-- The load stage of `main`: transform every source and load each batch
into its staging table, in program order; the first load failure aborts
the stage.  The API batch is loaded only when it is non-empty. -/
def stageAll (insertOk : String → Rec → Option String)
    (catalog : String → List String) (src : Sources) :
    Except LoadError StagedBatch := do
  let dfApi := transform_api src.api
  let rCust ← load_to_staging (insertOk "Stg_Customers") (catalog "Stg_Customers")
      "Stg_Customers" (transform_oltp1_customers src.customers)
  let rBook ← load_to_staging (insertOk "Stg_Bookings") (catalog "Stg_Bookings")
      "Stg_Bookings" (transform_oltp1_bookings src.bookings)
  let rPay ← load_to_staging (insertOk "Stg_Payments") (catalog "Stg_Payments")
      "Stg_Payments" (transform_oltp1_payments src.payments)
  let rAir ← load_to_staging (insertOk "Stg_Aircrafts") (catalog "Stg_Aircrafts")
      "Stg_Aircrafts" (transform_oltp2_aircrafts src.aircrafts)
  let rFl ← load_to_staging (insertOk "Stg_Flights") (catalog "Stg_Flights")
      "Stg_Flights" (transform_oltp2_flights src.flights)
  let rRt ← load_to_staging (insertOk "Stg_Routes") (catalog "Stg_Routes")
      "Stg_Routes" (transform_oltp2_routes src.routes)
  let rCsv ← load_to_staging (insertOk "Stg_CustomerSatisfaction")
      (catalog "Stg_CustomerSatisfaction") "Stg_CustomerSatisfaction"
      (transform_csv src.csv)
  let apiOpt ← if dfApi.rows.isEmpty then pure none else do
      let rApi ← load_to_staging (insertOk "Stg_API_Flights") (catalog "Stg_API_Flights")
          "Stg_API_Flights" dfApi
      pure (some rApi.table)
  pure ⟨rCust.table, rBook.table, rPay.table, rAir.table, rFl.table, rRt.table,
        rCsv.table, apiOpt⟩

/-- Install one run's staged tables into the warehouse (a skipped API
load leaves the previous API staging table in place). -/
def applyStaged (W : Warehouse) (B : StagedBatch) : Warehouse :=
  { W with stgCustomers := B.customers, stgBookings := B.bookings,
           stgPayments := B.payments, stgAircrafts := B.aircrafts,
           stgFlights := B.flights, stgRoutes := B.routes,
           stgSatisfaction := B.satisfaction,
           stgApiFlights := B.apiOpt.getD W.stgApiFlights }

/-- `main`: load every staging table (a load failure aborts the run),
then merge staging into the dimension and fact tables.  `insertOk` is
the database's per-record insert verdict and `catalog` the warehouse
catalog's column list per table, both external collaborators. -/
def mainPipeline (insertOk : String → Rec → Option String)
    (catalog : String → List String) (src : Sources) (W : Warehouse) :
    Except LoadError (Warehouse × List (String × String)) :=
  (stageAll insertOk catalog src).map (fun B => merge_to_dim_fact (applyStaged W B))

/- ## Concrete instantiations used by the theorems -/

/-- A warehouse catalog giving each staging table the columns the merge
statements reference. -/
def stdCatalog : String → List String := fun t =>
  if t = "Stg_Customers" then ["CustomerID", "Name"]
  else if t = "Stg_Bookings" then ["BookingID", "CustomerID", "FlightID", "BookingDate"]
  else if t = "Stg_Payments" then ["PaymentID", "PaymentMethod", "Amount", "PaymentDate"]
  else if t = "Stg_Aircrafts" then ["AircraftID", "Model", "Capacity", "ManufactureYear"]
  else if t = "Stg_Flights" then
    ["FlightID", "RouteID", "PlaneID", "DepartureTime", "ArrivalTime"]
  else if t = "Stg_Routes" then ["RouteID", "Origin", "Destination", "Distance"]
  else if t = "Stg_CustomerSatisfaction" then
    ["CustomerID", "TypeOfTravel", "Class", "FlightDistance", "Satisfaction",
     "AverageRating"] ++ sqlRatingCols
  else []

/-- A database that accepts every record. -/
def okOracle : String → Rec → Option String := fun _ _ => none

/-- The empty warehouse. -/
def emptyWarehouse : Warehouse :=
  ⟨⟨[], []⟩, ⟨[], []⟩, ⟨[], []⟩, ⟨[], []⟩, ⟨[], []⟩, ⟨[], []⟩, ⟨[], []⟩, ⟨[], []⟩,
   [], [], [], [], [], [], []⟩

/-- Source data for the idempotence counterexample: every feed is empty
except payments, which holds two rows sharing `PaymentID = 1` (the
payments transform removes no duplicates). -/
def dupPaymentSources : Sources :=
  { customers := ⟨["CustomerID", "Name"], []⟩,
    bookings := ⟨["BookingID", "CustomerID", "FlightID", "BookingDate"], []⟩,
    payments := ⟨["PaymentID", "Amount"],
      [[Val.intV 1, Val.intV 5], [Val.intV 1, Val.intV 6]]⟩,
    aircrafts := ⟨["AircraftID", "Model", "Capacity", "ManufactureYear"], []⟩,
    flights := ⟨["FlightID", "RouteID", "PlaneID", "DepartureTime", "ArrivalTime"], []⟩,
    routes := ⟨["RouteID", "Origin", "Destination", "Distance"], []⟩,
    api := ⟨[], []⟩,
    csv := ⟨[], []⟩ }

/-- Running the pipeline twice on the same sources from a given
warehouse. -/
def runTwice (src : Sources) (W : Warehouse) :
    Except LoadError (Warehouse × List (String × String)) :=
  (mainPipeline okOracle stdCatalog src W).bind
    (fun p => mainPipeline okOracle stdCatalog src p.fst)

/- ## Business-key predicates -/

/-- A well-behaved business-key column: no NULLs and no repeated
values. -/
@[reducible] def GoodKeyList (ks : List Val) : Prop :=
  (∀ k ∈ ks, k ≠ Val.null) ∧ ks.Pairwise (· ≠ ·)

/-- The key column of a staging table, as a value list. -/
@[reducible] def stgKeys (t : Table) (c : String) : List Val :=
  t.rows.map (fun r => t.get r c)

/-- Every staging table carries exactly the columns of `stdCatalog`
(the live schema the merges were written against). -/
@[reducible] def stdStagingCols (W : Warehouse) : Prop :=
  W.stgCustomers.cols = stdCatalog "Stg_Customers" ∧
  W.stgBookings.cols = stdCatalog "Stg_Bookings" ∧
  W.stgPayments.cols = stdCatalog "Stg_Payments" ∧
  W.stgAircrafts.cols = stdCatalog "Stg_Aircrafts" ∧
  W.stgFlights.cols = stdCatalog "Stg_Flights" ∧
  W.stgRoutes.cols = stdCatalog "Stg_Routes" ∧
  W.stgSatisfaction.cols = stdCatalog "Stg_CustomerSatisfaction"

/-- Every staging table's business-key column (as the merges resolve it
under the standard schema) is NULL-free and duplicate-free. -/
@[reducible] def stgGoodKeys (W : Warehouse) : Prop :=
  GoodKeyList (stgKeys W.stgCustomers "CustomerID") ∧
  GoodKeyList (stgKeys W.stgBookings "BookingID") ∧
  GoodKeyList (stgKeys W.stgPayments "PaymentID") ∧
  GoodKeyList (stgKeys W.stgAircrafts "AircraftID") ∧
  GoodKeyList (stgKeys W.stgFlights "FlightID") ∧
  GoodKeyList (stgKeys W.stgRoutes "RouteID") ∧
  GoodKeyList (stgKeys W.stgSatisfaction "CustomerID")

/-- Every warehouse target table's business-key column is NULL-free and
duplicate-free ("business key uniquely identifies at most one row"). -/
@[reducible] def tgtGoodKeys (W : Warehouse) : Prop :=
  GoodKeyList (W.dimCustomer.map CustomerRow.customerID) ∧
  GoodKeyList (W.dimAircraft.map AircraftRow.aircraftID) ∧
  GoodKeyList (W.dimRoute.map RouteRow.routeID) ∧
  GoodKeyList (W.dimFlight.map FlightRow.flightID) ∧
  GoodKeyList (W.dimPayment.map PaymentRow.paymentID) ∧
  GoodKeyList (W.dimSatisfaction.map SatisfactionRow.customerID) ∧
  GoodKeyList (W.factBooking.map FactBookingRow.bookingID)

/- ## Concrete data used to instantiate the theorems -/

/-- Sources with a single, duplicate-free payment row and every other
feed empty. -/
def singleSources : Sources :=
  { dupPaymentSources with payments := ⟨["PaymentID", "Amount"], [[Val.intV 1, Val.intV 5]]⟩ }

def c1wRun1 : Except LoadError (Warehouse × List (String × String)) :=
  mainPipeline okOracle stdCatalog singleSources emptyWarehouse

def c1wW1 : Warehouse := ((c1wRun1.toOption).getD (emptyWarehouse, [])).fst

def c1wRun2 : Except LoadError (Warehouse × List (String × String)) :=
  mainPipeline okOracle stdCatalog singleSources c1wW1

def c1wW2 : Warehouse := ((c1wRun2.toOption).getD (emptyWarehouse, [])).fst

/-- A warehouse whose aircraft staging table is malformed (its `Model`
column is missing, so the DimAircraft upsert statement fails) while the
other staging tables are standard; the route staging holds one row. -/
def c2W : Warehouse :=
  { emptyWarehouse with
      stgCustomers := ⟨stdCatalog "Stg_Customers", []⟩,
      stgBookings := ⟨stdCatalog "Stg_Bookings", []⟩,
      stgPayments := ⟨stdCatalog "Stg_Payments", []⟩,
      stgAircrafts := ⟨["PlaneID"], [[Val.intV 9]]⟩,
      stgFlights := ⟨stdCatalog "Stg_Flights", []⟩,
      stgRoutes := ⟨stdCatalog "Stg_Routes",
        [[Val.intV 4, Val.strV "Paris", Val.strV "Rome", Val.intV 500]]⟩,
      stgSatisfaction := ⟨stdCatalog "Stg_CustomerSatisfaction", []⟩ }

/-- A warehouse with standard staging schemas, zero staged rows
everywhere, and a pre-existing customer dimension row. -/
def c9W : Warehouse :=
  { emptyWarehouse with
      stgCustomers := ⟨stdCatalog "Stg_Customers", []⟩,
      stgBookings := ⟨stdCatalog "Stg_Bookings", []⟩,
      stgPayments := ⟨stdCatalog "Stg_Payments", []⟩,
      stgAircrafts := ⟨stdCatalog "Stg_Aircrafts", []⟩,
      stgFlights := ⟨stdCatalog "Stg_Flights", []⟩,
      stgRoutes := ⟨stdCatalog "Stg_Routes", []⟩,
      stgSatisfaction := ⟨stdCatalog "Stg_CustomerSatisfaction", []⟩,
      dimCustomer := [⟨Val.intV 1, Val.strV "Ann"⟩] }

/-- A database that rejects any record whose `BookingID` field is 13
(standing for a type/constraint violation on one row). -/
def c6Oracle : String → Rec → Option String := fun _ r =>
  if (List.lookup "BookingID" r).getD Val.null = Val.intV 13 then
    some "constraint violation" else none

/-- Sources whose bookings feed contains the record the database
rejects. -/
def c6Sources : Sources :=
  { dupPaymentSources with
      payments := ⟨["PaymentID", "Amount"], []⟩,
      bookings := ⟨["BookingID", "CustomerID", "FlightID"],
        [[Val.intV 13, Val.intV 2, Val.intV 3]]⟩ }

/- ## Helper lemmas -/

theorem sqlEq_true_iff (a b : Val) :
    sqlEq a b = true ↔ (a ≠ Val.null ∧ b ≠ Val.null ∧ a = b) := by
  simp [sqlEq]

theorem sqlEq_self (a : Val) (h : a ≠ Val.null) : sqlEq a a = true := by
  simp [sqlEq, h]

theorem sqlEq_false_ne (a b : Val) (ha : a ≠ Val.null) (hb : b ≠ Val.null)
    (h : sqlEq a b = false) : a ≠ b := by
  intro hab
  rw [← Bool.not_eq_true, sqlEq_true_iff] at h
  exact h ⟨ha, hb, hab⟩

theorem upsertInsert_map_key {σ ρ : Type} (keyOf : ρ → Val) (srcKey : σ → Val)
    (mk : σ → ρ) (src : List σ) (tgt : List ρ)
    (hmk : ∀ s, keyOf (mk s) = srcKey s) :
    (upsertInsert keyOf srcKey mk src tgt).map keyOf =
      tgt.map keyOf ++
        (src.filter (fun s => !(tgt.any (fun t => sqlEq (keyOf t) (srcKey s))))).map srcKey := by
  simp only [upsertInsert, List.map_append, List.map_map]
  congr 1
  exact List.map_congr_left (fun s _ => hmk s)

theorem upsertUpdate_map_key {σ ρ : Type} (keyOf : ρ → Val) (srcKey : σ → Val)
    (mk : σ → ρ) (upd : ρ → σ → ρ) (src : List σ) (tgt : List ρ)
    (hmk : ∀ s, keyOf (mk s) = srcKey s)
    (hupd : ∀ t s, keyOf (upd t s) = keyOf t) :
    (upsertUpdate keyOf srcKey mk upd src tgt).map keyOf =
      tgt.map keyOf ++
        (src.filter (fun s => !(tgt.any (fun t => sqlEq (keyOf t) (srcKey s))))).map srcKey := by
  simp only [upsertUpdate, List.map_append, List.map_map]
  congr 1
  · refine List.map_congr_left (fun t _ => ?_)
    simp only [Function.comp_apply]
    cases hf : List.find? (fun s => sqlEq (keyOf t) (srcKey s)) src with
    | none => rfl
    | some s => exact hupd t s
  · exact List.map_congr_left (fun s _ => hmk s)

theorem upsertInsert_idem {σ ρ : Type} (keyOf : ρ → Val) (srcKey : σ → Val)
    (mk : σ → ρ) (src : List σ) (tgt : List ρ)
    (hmk : ∀ s, keyOf (mk s) = srcKey s)
    (hnn : ∀ s ∈ src, srcKey s ≠ Val.null) :
    upsertInsert keyOf srcKey mk src (upsertInsert keyOf srcKey mk src tgt) =
      upsertInsert keyOf srcKey mk src tgt := by
  have hfil : src.filter (fun s =>
      !((upsertInsert keyOf srcKey mk src tgt).any
        (fun t => sqlEq (keyOf t) (srcKey s)))) = [] := by
    rw [List.filter_eq_nil_iff]
    intro s hs
    simp only [Bool.not_eq_true', Bool.not_eq_false]
    rw [upsertInsert, List.any_append]
    cases htgt : tgt.any (fun t => sqlEq (keyOf t) (srcKey s)) with
    | true => simp
    | false =>
        have hmem : mk s ∈ (src.filter (fun s' =>
            !(tgt.any (fun t => sqlEq (keyOf t) (srcKey s'))))).map mk := by
          exact List.mem_map_of_mem mk (List.mem_filter.mpr ⟨hs, by simp [htgt]⟩)
        have : sqlEq (keyOf (mk s)) (srcKey s) = true := by
          rw [hmk s]
          exact sqlEq_self _ (hnn s hs)
        simp only [Bool.or_eq_true, List.any_eq_true]
        exact Or.inr ⟨mk s, hmem, this⟩
  conv_lhs => rw [upsertInsert, hfil]
  simp

theorem goodKeyList_merge_shape {σ ρ : Type} (keyOf : ρ → Val) (srcKey : σ → Val)
    (src : List σ) (tgt : List ρ)
    (htgt : GoodKeyList (tgt.map keyOf)) (hsrc : GoodKeyList (src.map srcKey)) :
    GoodKeyList (tgt.map keyOf ++
      (src.filter (fun s => !(tgt.any (fun t => sqlEq (keyOf t) (srcKey s))))).map srcKey) := by
  obtain ⟨htn, htp⟩ := htgt
  obtain ⟨hsn, hsp⟩ := hsrc
  have hsubn : ∀ k ∈ (src.filter (fun s =>
      !(tgt.any (fun t => sqlEq (keyOf t) (srcKey s))))).map srcKey, k ≠ Val.null := by
    intro k hk
    obtain ⟨s, hsmem, rfl⟩ := List.mem_map.mp hk
    exact hsn _ (List.mem_map_of_mem srcKey (List.mem_of_mem_filter hsmem))
  constructor
  · intro k hk
    rcases List.mem_append.mp hk with h | h
    · exact htn k h
    · exact hsubn k h
  · rw [List.pairwise_append]
    refine ⟨htp, ?_, ?_⟩
    · rw [List.pairwise_map] at hsp ⊢
      exact hsp.sublist (List.filter_sublist src)
    · intro a ha b hb
      obtain ⟨s, hsmem, rfl⟩ := List.mem_map.mp hb
      obtain ⟨t, htmem, rfl⟩ := List.mem_map.mp ha
      have hpred := List.of_mem_filter hsmem
      simp only [Bool.not_eq_true'] at hpred
      have : sqlEq (keyOf t) (srcKey s) = false := by
        rw [List.any_eq_false] at hpred
        simpa using hpred t htmem
      exact sqlEq_false_ne _ _ (htn _ (List.mem_map_of_mem keyOf htmem))
        (hsn _ (List.mem_map_of_mem srcKey (List.mem_of_mem_filter hsmem))) this

theorem goodKeyList_upsertInsert {σ ρ : Type} (keyOf : ρ → Val) (srcKey : σ → Val)
    (mk : σ → ρ) (src : List σ) (tgt : List ρ)
    (hmk : ∀ s, keyOf (mk s) = srcKey s)
    (htgt : GoodKeyList (tgt.map keyOf)) (hsrc : GoodKeyList (src.map srcKey)) :
    GoodKeyList ((upsertInsert keyOf srcKey mk src tgt).map keyOf) := by
  rw [upsertInsert_map_key keyOf srcKey mk src tgt hmk]
  exact goodKeyList_merge_shape keyOf srcKey src tgt htgt hsrc

theorem goodKeyList_upsertUpdate {σ ρ : Type} (keyOf : ρ → Val) (srcKey : σ → Val)
    (mk : σ → ρ) (upd : ρ → σ → ρ) (src : List σ) (tgt : List ρ)
    (hmk : ∀ s, keyOf (mk s) = srcKey s)
    (hupd : ∀ t s, keyOf (upd t s) = keyOf t)
    (htgt : GoodKeyList (tgt.map keyOf)) (hsrc : GoodKeyList (src.map srcKey)) :
    GoodKeyList ((upsertUpdate keyOf srcKey mk upd src tgt).map keyOf) := by
  rw [upsertUpdate_map_key keyOf srcKey mk upd src tgt hmk hupd]
  exact goodKeyList_merge_shape keyOf srcKey src tgt htgt hsrc

theorem filter_key_subsingleton {α : Type} (key : α → Val) (l : List α) (k : Val)
    (h : (l.map key).Pairwise (· ≠ ·)) :
    l.filter (fun f => sqlEq k (key f)) = [] ∨
      ∃ f, l.filter (fun f => sqlEq k (key f)) = [f] := by
  rcases hms : l.filter (fun f => sqlEq k (key f)) with _ | ⟨f1, _ | ⟨f2, t⟩⟩
  · exact Or.inl rfl
  · exact Or.inr ⟨f1, rfl⟩
  · exfalso
    have hpl : l.Pairwise (fun a b => key a ≠ key b) := List.pairwise_map.mp h
    have hpm : (l.filter (fun f => sqlEq k (key f))).Pairwise
        (fun a b => key a ≠ key b) := hpl.sublist (List.filter_sublist l)
    rw [hms] at hpm
    have hne : key f1 ≠ key f2 := (List.pairwise_cons.mp hpm).1 f2 (by simp)
    have h1 : sqlEq k (key f1) = true :=
      List.of_mem_filter (p := fun f => sqlEq k (key f)) (hms ▸ List.mem_cons_self f1 _)
    have h2 : sqlEq k (key f2) = true :=
      List.of_mem_filter (p := fun f => sqlEq k (key f))
        (hms ▸ List.mem_cons_of_mem f1 (List.mem_cons_self f2 t))
    rw [sqlEq_true_iff] at h1 h2
    exact hne (h1.2.2 ▸ h2.2.2 ▸ rfl)

theorem bookingFlightJoin_map_fst (stgB stgF : Table)
    (hF : (stgKeys stgF "FlightID").Pairwise (· ≠ ·)) :
    (bookingFlightJoin stgB stgF).map Prod.fst = stgB.rows := by
  unfold bookingFlightJoin
  induction stgB.rows with
  | nil => rfl
  | cons b bs ih =>
      rw [List.flatMap_cons, List.map_append, ih]
      rcases filter_key_subsingleton (fun f => stgF.get f "FlightID") stgF.rows
          (stgB.get b "FlightID") hF with hnil | ⟨f, hone⟩
      · rw [hnil]
        rfl
      · rw [hone]
        rfl

theorem mem_bookingFlightJoin_fst (stgB stgF : Table)
    (p : List Val × Option (List Val)) (hp : p ∈ bookingFlightJoin stgB stgF) :
    p.fst ∈ stgB.rows := by
  unfold bookingFlightJoin at hp
  obtain ⟨b, hb, hmem⟩ := List.mem_flatMap.mp hp
  rcases hms : stgF.rows.filter
      (fun f => sqlEq (stgB.get b "FlightID") (stgF.get f "FlightID")) with _ | _
  · rw [hms] at hmem
    simp only [List.mem_singleton] at hmem
    rw [hmem]
    exact hb
  · rw [hms] at hmem
    simp only [List.mem_map] at hmem
    obtain ⟨f, _, hfe⟩ := hmem
    rw [← hfe]
    exact hb

/- Under the standard staging schemas every merge statement resolves its
columns successfully and reduces to its upsert. -/

theorem mergeDimCustomer_std (stg : Table) (dim : List CustomerRow)
    (h : stg.cols = stdCatalog "Stg_Customers") :
    mergeDimCustomer stg dim = Except.ok (custUpsert stg dim) := by
  simp [mergeDimCustomer, custUpsert, h, stdCatalog]

theorem mergeDimAircraft_std (stg : Table) (dim : List AircraftRow)
    (h : stg.cols = stdCatalog "Stg_Aircrafts") :
    mergeDimAircraft stg dim = Except.ok (airUpsert stg dim) := by
  simp [mergeDimAircraft, mergeAircraftIdCol, airUpsert, h, stdCatalog]

theorem mergeDimRoute_std (stg : Table) (dim : List RouteRow)
    (h : stg.cols = stdCatalog "Stg_Routes") :
    mergeDimRoute stg dim = Except.ok (routeUpsert stg dim) := by
  simp [mergeDimRoute, mergeRouteIdCol, mergeOriginCol, routeUpsert, h, stdCatalog]

theorem mergeDimFlight_std (stg : Table) (dim : List FlightRow)
    (h : stg.cols = stdCatalog "Stg_Flights") :
    mergeDimFlight stg dim = Except.ok (flightUpsert stg dim) := by
  simp [mergeDimFlight, mergeFlightIdCol, flightUpsert, h, stdCatalog]

theorem mergeDimPayment_std (stg : Table) (dim : List PaymentRow)
    (h : stg.cols = stdCatalog "Stg_Payments") :
    mergeDimPayment stg dim = Except.ok (payUpsert stg dim) := by
  simp [mergeDimPayment, mergePaymentIdCol, payUpsert, h, stdCatalog]

theorem mergeDimSatisfaction_std (stg : Table) (dim : List SatisfactionRow)
    (h : stg.cols = stdCatalog "Stg_CustomerSatisfaction") :
    mergeDimSatisfaction stg dim = Except.ok (satUpsert stg dim) := by
  simp [mergeDimSatisfaction, satUpsert, h, stdCatalog]
  exact fun x hx _ _ _ _ _ _ => hx

theorem mergeFactBooking_std (stgB stgF : Table) (fact : List FactBookingRow)
    (hB : stgB.cols = stdCatalog "Stg_Bookings")
    (hF : stgF.cols = stdCatalog "Stg_Flights") :
    mergeFactBooking stgB stgF fact = Except.ok (factUpsert stgB stgF fact) := by
  simp [mergeFactBooking, mergeBookingIdCol, mergeBookingDateCol, factUpsert,
    hB, hF, stdCatalog]

/-- When all seven merges succeed, `merge_to_dim_fact` applies all their
results and logs nothing. -/
theorem merge_to_dim_fact_ok (W : Warehouse)
    (c : List CustomerRow) (a : List AircraftRow) (r : List RouteRow)
    (f : List FlightRow) (p : List PaymentRow) (s : List SatisfactionRow)
    (b : List FactBookingRow)
    (hc : mergeDimCustomer W.stgCustomers W.dimCustomer = Except.ok c)
    (ha : mergeDimAircraft W.stgAircrafts W.dimAircraft = Except.ok a)
    (hr : mergeDimRoute W.stgRoutes W.dimRoute = Except.ok r)
    (hf : mergeDimFlight W.stgFlights W.dimFlight = Except.ok f)
    (hp : mergeDimPayment W.stgPayments W.dimPayment = Except.ok p)
    (hs : mergeDimSatisfaction W.stgSatisfaction W.dimSatisfaction = Except.ok s)
    (hb : mergeFactBooking W.stgBookings W.stgFlights W.factBooking = Except.ok b) :
    merge_to_dim_fact W =
      ({ W with dimCustomer := c, dimAircraft := a, dimRoute := r, dimFlight := f,
                dimPayment := p, dimSatisfaction := s, factBooking := b }, []) := by
  simp [merge_to_dim_fact, catchStep, hc, ha, hr, hf, hp, hs, hb]

/-- The merger never touches the staging tables. -/
theorem merge_preserves_staging (W : Warehouse) :
    (merge_to_dim_fact W).fst.stgCustomers = W.stgCustomers ∧
    (merge_to_dim_fact W).fst.stgBookings = W.stgBookings ∧
    (merge_to_dim_fact W).fst.stgPayments = W.stgPayments ∧
    (merge_to_dim_fact W).fst.stgAircrafts = W.stgAircrafts ∧
    (merge_to_dim_fact W).fst.stgFlights = W.stgFlights ∧
    (merge_to_dim_fact W).fst.stgRoutes = W.stgRoutes ∧
    (merge_to_dim_fact W).fst.stgSatisfaction = W.stgSatisfaction ∧
    (merge_to_dim_fact W).fst.stgApiFlights = W.stgApiFlights := by
  exact ⟨rfl, rfl, rfl, rfl, rfl, rfl, rfl, rfl⟩

/-- Re-installing the same staged batch into the post-merge warehouse is
a no-op: the second run's loads reproduce the staging state the first
run's merge saw. -/
theorem applyStaged_merge_self (W : Warehouse) (B : StagedBatch) :
    applyStaged (merge_to_dim_fact (applyStaged W B)).fst B =
      (merge_to_dim_fact (applyStaged W B)).fst := by
  cases hapi : B.apiOpt with
  | none => simp [applyStaged, merge_to_dim_fact, hapi]
  | some t => simp [applyStaged, merge_to_dim_fact, hapi]

/-- Under the standard staging schemas, one merge pass applies all seven
upserts and logs nothing. -/
theorem merge_once_std (X : Warehouse) (hcols : stdStagingCols X) :
    merge_to_dim_fact X =
      ({ X with dimCustomer := custUpsert X.stgCustomers X.dimCustomer,
                dimAircraft := airUpsert X.stgAircrafts X.dimAircraft,
                dimRoute := routeUpsert X.stgRoutes X.dimRoute,
                dimFlight := flightUpsert X.stgFlights X.dimFlight,
                dimPayment := payUpsert X.stgPayments X.dimPayment,
                dimSatisfaction := satUpsert X.stgSatisfaction X.dimSatisfaction,
                factBooking := factUpsert X.stgBookings X.stgFlights X.factBooking },
       []) := by
  obtain ⟨hcC, hcB, hcP, hcA, hcF, hcR, hcS⟩ := hcols
  exact merge_to_dim_fact_ok X _ _ _ _ _ _ _
    (mergeDimCustomer_std _ _ hcC) (mergeDimAircraft_std _ _ hcA)
    (mergeDimRoute_std _ _ hcR) (mergeDimFlight_std _ _ hcF)
    (mergeDimPayment_std _ _ hcP) (mergeDimSatisfaction_std _ _ hcS)
    (mergeFactBooking_std _ _ _ hcB hcF)

theorem goodKeyList_nonnull_rows (t : Table) (c : String)
    (h : GoodKeyList (stgKeys t c)) : ∀ r ∈ t.rows, t.get r c ≠ Val.null :=
  fun _ hr => h.1 _ (List.mem_map_of_mem _ hr)

/- Re-running an insert-only upsert with the same staging rows changes
nothing (every key is already present), provided no staged key is NULL. -/

theorem airUpsert_idem (stg : Table) (dim : List AircraftRow)
    (hnn : ∀ r ∈ stg.rows, stg.get r "AircraftID" ≠ Val.null) :
    airUpsert stg (airUpsert stg dim) = airUpsert stg dim :=
  upsertInsert_idem _ _ _ _ _ (fun _ => rfl) hnn

theorem routeUpsert_idem (stg : Table) (dim : List RouteRow)
    (hnn : ∀ r ∈ stg.rows, stg.get r "RouteID" ≠ Val.null) :
    routeUpsert stg (routeUpsert stg dim) = routeUpsert stg dim :=
  upsertInsert_idem _ _ _ _ _ (fun _ => rfl) hnn

theorem flightUpsert_idem (stg : Table) (dim : List FlightRow)
    (hnn : ∀ r ∈ stg.rows, stg.get r "FlightID" ≠ Val.null) :
    flightUpsert stg (flightUpsert stg dim) = flightUpsert stg dim :=
  upsertInsert_idem _ _ _ _ _ (fun _ => rfl) hnn

theorem payUpsert_idem (stg : Table) (dim : List PaymentRow)
    (hnn : ∀ r ∈ stg.rows, stg.get r "PaymentID" ≠ Val.null) :
    payUpsert stg (payUpsert stg dim) = payUpsert stg dim :=
  upsertInsert_idem _ _ _ _ _ (fun _ => rfl) hnn

theorem satUpsert_idem (stg : Table) (dim : List SatisfactionRow)
    (hnn : ∀ r ∈ stg.rows, stg.get r "CustomerID" ≠ Val.null) :
    satUpsert stg (satUpsert stg dim) = satUpsert stg dim :=
  upsertInsert_idem _ _ _ _ _ (fun _ => rfl) hnn

theorem factUpsert_idem (stgB stgF : Table) (fact : List FactBookingRow)
    (hnn : ∀ r ∈ stgB.rows, stgB.get r "BookingID" ≠ Val.null) :
    factUpsert stgB stgF (factUpsert stgB stgF fact) = factUpsert stgB stgF fact :=
  upsertInsert_idem _ _ _ _ _ (fun _ => rfl)
    (fun p hp => hnn p.fst (mem_bookingFlightJoin_fst _ _ p hp))

/- An upsert keeps the target's business-key column NULL-free and
duplicate-free when the staged keys are. -/

theorem custUpsert_goodKeys (stg : Table) (dim : List CustomerRow)
    (htgt : GoodKeyList (dim.map CustomerRow.customerID))
    (hsrc : GoodKeyList (stgKeys stg "CustomerID")) :
    GoodKeyList ((custUpsert stg dim).map CustomerRow.customerID) :=
  goodKeyList_upsertUpdate _ _ _ _ _ _ (fun _ => rfl) (fun _ _ => rfl) htgt hsrc

theorem airUpsert_goodKeys (stg : Table) (dim : List AircraftRow)
    (htgt : GoodKeyList (dim.map AircraftRow.aircraftID))
    (hsrc : GoodKeyList (stgKeys stg "AircraftID")) :
    GoodKeyList ((airUpsert stg dim).map AircraftRow.aircraftID) :=
  goodKeyList_upsertInsert _ _ _ _ _ (fun _ => rfl) htgt hsrc

theorem routeUpsert_goodKeys (stg : Table) (dim : List RouteRow)
    (htgt : GoodKeyList (dim.map RouteRow.routeID))
    (hsrc : GoodKeyList (stgKeys stg "RouteID")) :
    GoodKeyList ((routeUpsert stg dim).map RouteRow.routeID) :=
  goodKeyList_upsertInsert _ _ _ _ _ (fun _ => rfl) htgt hsrc

theorem flightUpsert_goodKeys (stg : Table) (dim : List FlightRow)
    (htgt : GoodKeyList (dim.map FlightRow.flightID))
    (hsrc : GoodKeyList (stgKeys stg "FlightID")) :
    GoodKeyList ((flightUpsert stg dim).map FlightRow.flightID) :=
  goodKeyList_upsertInsert _ _ _ _ _ (fun _ => rfl) htgt hsrc

theorem payUpsert_goodKeys (stg : Table) (dim : List PaymentRow)
    (htgt : GoodKeyList (dim.map PaymentRow.paymentID))
    (hsrc : GoodKeyList (stgKeys stg "PaymentID")) :
    GoodKeyList ((payUpsert stg dim).map PaymentRow.paymentID) :=
  goodKeyList_upsertInsert _ _ _ _ _ (fun _ => rfl) htgt hsrc

theorem satUpsert_goodKeys (stg : Table) (dim : List SatisfactionRow)
    (htgt : GoodKeyList (dim.map SatisfactionRow.customerID))
    (hsrc : GoodKeyList (stgKeys stg "CustomerID")) :
    GoodKeyList ((satUpsert stg dim).map SatisfactionRow.customerID) :=
  goodKeyList_upsertInsert _ _ _ _ _ (fun _ => rfl) htgt hsrc

theorem factUpsert_goodKeys (stgB stgF : Table) (fact : List FactBookingRow)
    (htgt : GoodKeyList (fact.map FactBookingRow.bookingID))
    (hB : GoodKeyList (stgKeys stgB "BookingID"))
    (hFp : (stgKeys stgF "FlightID").Pairwise (· ≠ ·)) :
    GoodKeyList ((factUpsert stgB stgF fact).map FactBookingRow.bookingID) := by
  refine goodKeyList_upsertInsert _ _ _ _ _ (fun _ => rfl) htgt ?_
  show GoodKeyList ((bookingFlightJoin stgB stgF).map
    ((fun b => stgB.get b "BookingID") ∘ Prod.fst))
  rw [← List.map_map, bookingFlightJoin_map_fst stgB stgF hFp]
  exact hB

/-- C1 (amended): running the pipeline twice on unchanged source data
leaves every insert-only target (DimAircraft, DimRoute, DimFlight,
DimPayment, DimSatisfaction, FactBooking) identical after the second
run, and no warehouse table acquires duplicate business keys — PROVIDED
each staging table's resolved business-key column is NULL-free and
duplicate-free (the transforms guarantee this for customers, bookings,
aircrafts, flights and routes, but not for payments or satisfaction,
whence the counterexample) and the pre-existing target keys are too. -/
theorem C1_two_runs_insert_only_stable
    (insertOk : String → Rec → Option String) (catalog : String → List String)
    (src : Sources) (W W1 W2 : Warehouse) (log1 log2 : List (String × String))
    (h1 : mainPipeline insertOk catalog src W = Except.ok (W1, log1))
    (h2 : mainPipeline insertOk catalog src W1 = Except.ok (W2, log2))
    (hcols : stdStagingCols W1) (hstg : stgGoodKeys W1) (htgt : tgtGoodKeys W) :
    (W2.dimAircraft = W1.dimAircraft ∧ W2.dimRoute = W1.dimRoute ∧
     W2.dimFlight = W1.dimFlight ∧ W2.dimPayment = W1.dimPayment ∧
     W2.dimSatisfaction = W1.dimSatisfaction ∧ W2.factBooking = W1.factBooking) ∧
    tgtGoodKeys W1 ∧ tgtGoodKeys W2 := by
  cases hB : stageAll insertOk catalog src with
  | error e =>
      rw [mainPipeline, hB] at h1
      simp [Except.map] at h1
  | ok B =>
      rw [mainPipeline, hB] at h1 h2
      simp only [Except.map, Except.ok.injEq] at h1 h2
      have hW1 : (merge_to_dim_fact (applyStaged W B)).fst = W1 := by rw [h1]
      have hself : applyStaged W1 B = W1 := by
        have h := applyStaged_merge_self W B
        rw [hW1] at h
        exact h
      rw [hself] at h2
      have hc0 : stdStagingCols (applyStaged W B) := by
        rw [← hW1] at hcols
        exact hcols
      have hs0 : stgGoodKeys (applyStaged W B) := by
        rw [← hW1] at hstg
        exact hstg
      have hm1 := merge_once_std (applyStaged W B) hc0
      have hW1eq : W1 =
          { applyStaged W B with
              dimCustomer := custUpsert (applyStaged W B).stgCustomers
                (applyStaged W B).dimCustomer,
              dimAircraft := airUpsert (applyStaged W B).stgAircrafts
                (applyStaged W B).dimAircraft,
              dimRoute := routeUpsert (applyStaged W B).stgRoutes
                (applyStaged W B).dimRoute,
              dimFlight := flightUpsert (applyStaged W B).stgFlights
                (applyStaged W B).dimFlight,
              dimPayment := payUpsert (applyStaged W B).stgPayments
                (applyStaged W B).dimPayment,
              dimSatisfaction := satUpsert (applyStaged W B).stgSatisfaction
                (applyStaged W B).dimSatisfaction,
              factBooking := factUpsert (applyStaged W B).stgBookings
                (applyStaged W B).stgFlights (applyStaged W B).factBooking } := by
        rw [← hW1, hm1]
      have hm2 := merge_once_std W1 hcols
      rw [hm2, Prod.mk.injEq] at h2
      obtain ⟨hW2, -⟩ := h2
      subst hW2
      obtain ⟨kC, kB0, kP, kA, kF, kR, kS⟩ := hs0
      obtain ⟨tC, tA, tR, tF, tP, tS, tB⟩ := htgt
      rw [hW1eq]
      exact ⟨⟨airUpsert_idem (applyStaged W B).stgAircrafts
                (applyStaged W B).dimAircraft (goodKeyList_nonnull_rows _ _ kA),
              routeUpsert_idem (applyStaged W B).stgRoutes
                (applyStaged W B).dimRoute (goodKeyList_nonnull_rows _ _ kR),
              flightUpsert_idem (applyStaged W B).stgFlights
                (applyStaged W B).dimFlight (goodKeyList_nonnull_rows _ _ kF),
              payUpsert_idem (applyStaged W B).stgPayments
                (applyStaged W B).dimPayment (goodKeyList_nonnull_rows _ _ kP),
              satUpsert_idem (applyStaged W B).stgSatisfaction
                (applyStaged W B).dimSatisfaction (goodKeyList_nonnull_rows _ _ kS),
              factUpsert_idem (applyStaged W B).stgBookings (applyStaged W B).stgFlights
                (applyStaged W B).factBooking (goodKeyList_nonnull_rows _ _ kB0)⟩,
             ⟨custUpsert_goodKeys _ _ tC kC,
              airUpsert_goodKeys _ _ tA kA,
              routeUpsert_goodKeys _ _ tR kR,
              flightUpsert_goodKeys _ _ tF kF,
              payUpsert_goodKeys _ _ tP kP,
              satUpsert_goodKeys _ _ tS kS,
              factUpsert_goodKeys _ _ _ tB kB0 kF.2⟩,
             ⟨custUpsert_goodKeys _ _ (custUpsert_goodKeys _ _ tC kC) kC,
              airUpsert_goodKeys _ _ (airUpsert_goodKeys _ _ tA kA) kA,
              routeUpsert_goodKeys _ _ (routeUpsert_goodKeys _ _ tR kR) kR,
              flightUpsert_goodKeys _ _ (flightUpsert_goodKeys _ _ tF kF) kF,
              payUpsert_goodKeys _ _ (payUpsert_goodKeys _ _ tP kP) kP,
              satUpsert_goodKeys _ _ (satUpsert_goodKeys _ _ tS kS) kS,
              factUpsert_goodKeys _ _ _
                (factUpsert_goodKeys _ _ _ tB kB0 kF.2) kB0 kF.2⟩⟩

/-- C1 counterexample: source data whose payments table holds two rows
with `PaymentID = 1` passes the payments transform untouched (it never
deduplicates), and after running the full pipeline twice on these
unchanged sources the DimPayment business-key column reads `[1, 1]` —
duplicate business keys in a warehouse table, refuting the claim. -/
theorem C1_counterexample :
    (runTwice dupPaymentSources emptyWarehouse).map
      (fun p => p.fst.dimPayment.map PaymentRow.paymentID) =
    Except.ok [Val.intV 1, Val.intV 1] := by
  rfl

theorem C1_two_runs_insert_only_stable_witness :
    (c1wW2.dimAircraft = c1wW1.dimAircraft ∧ c1wW2.dimRoute = c1wW1.dimRoute ∧
     c1wW2.dimFlight = c1wW1.dimFlight ∧ c1wW2.dimPayment = c1wW1.dimPayment ∧
     c1wW2.dimSatisfaction = c1wW1.dimSatisfaction ∧
     c1wW2.factBooking = c1wW1.factBooking) ∧
    tgtGoodKeys c1wW1 ∧ tgtGoodKeys c1wW2 :=
  C1_two_runs_insert_only_stable okOracle stdCatalog singleSources emptyWarehouse
    c1wW1 c1wW2 [] [] (by rfl) (by rfl) (by decide) (by decide) (by decide)

/-- C2: when the DimAircraft upsert fails, `merge_to_dim_fact` catches
the error at that table's boundary (the aircraft dimension is left
unchanged), logs the table name with the cause, and still executes every
subsequent merge — whatever the route, flight, payment, satisfaction and
fact merges produce is applied to their targets. -/
theorem C2_partial_failure_isolation (W : Warehouse) (e : String)
    (hAir : mergeDimAircraft W.stgAircrafts W.dimAircraft = Except.error e) :
    (merge_to_dim_fact W).fst.dimAircraft = W.dimAircraft ∧
    ("DimAircraft", e) ∈ (merge_to_dim_fact W).snd ∧
    (∀ t, mergeDimRoute W.stgRoutes W.dimRoute = Except.ok t →
        (merge_to_dim_fact W).fst.dimRoute = t) ∧
    (∀ t, mergeDimFlight W.stgFlights W.dimFlight = Except.ok t →
        (merge_to_dim_fact W).fst.dimFlight = t) ∧
    (∀ t, mergeDimPayment W.stgPayments W.dimPayment = Except.ok t →
        (merge_to_dim_fact W).fst.dimPayment = t) ∧
    (∀ t, mergeDimSatisfaction W.stgSatisfaction W.dimSatisfaction = Except.ok t →
        (merge_to_dim_fact W).fst.dimSatisfaction = t) ∧
    (∀ t, mergeFactBooking W.stgBookings W.stgFlights W.factBooking = Except.ok t →
        (merge_to_dim_fact W).fst.factBooking = t) := by
  refine ⟨?_, ?_, ?_, ?_, ?_, ?_, ?_⟩
  · simp [merge_to_dim_fact, catchStep, hAir]
  · simp [merge_to_dim_fact, catchStep, hAir]
  · intro t ht
    simp [merge_to_dim_fact, catchStep, ht]
  · intro t ht
    simp [merge_to_dim_fact, catchStep, ht]
  · intro t ht
    simp [merge_to_dim_fact, catchStep, ht]
  · intro t ht
    simp [merge_to_dim_fact, catchStep, ht]
  · intro t ht
    simp [merge_to_dim_fact, catchStep, ht]

theorem C2_partial_failure_isolation_witness :
    (merge_to_dim_fact c2W).fst.dimAircraft = c2W.dimAircraft ∧
    ("DimAircraft", "Invalid column name in Stg_Aircrafts") ∈ (merge_to_dim_fact c2W).snd ∧
    (∀ t, mergeDimRoute c2W.stgRoutes c2W.dimRoute = Except.ok t →
        (merge_to_dim_fact c2W).fst.dimRoute = t) ∧
    (∀ t, mergeDimFlight c2W.stgFlights c2W.dimFlight = Except.ok t →
        (merge_to_dim_fact c2W).fst.dimFlight = t) ∧
    (∀ t, mergeDimPayment c2W.stgPayments c2W.dimPayment = Except.ok t →
        (merge_to_dim_fact c2W).fst.dimPayment = t) ∧
    (∀ t, mergeDimSatisfaction c2W.stgSatisfaction c2W.dimSatisfaction = Except.ok t →
        (merge_to_dim_fact c2W).fst.dimSatisfaction = t) ∧
    (∀ t, mergeFactBooking c2W.stgBookings c2W.stgFlights c2W.factBooking = Except.ok t →
        (merge_to_dim_fact c2W).fst.factBooking = t) :=
  C2_partial_failure_isolation c2W "Invalid column name in Stg_Aircrafts" (by rfl)

/-- The transform's alias loop implements exactly the first-alias-wins
rule. -/
theorem aircraftIdLoop_eq_firstAliasIn (cols : List String) :
    ∀ aliases : List String, aircraftIdLoop cols aliases = firstAliasIn aliases cols := by
  intro aliases
  induction aliases with
  | nil => rfl
  | cons a rest ih =>
      rw [aircraftIdLoop, firstAliasIn, List.find?_cons]
      by_cases h : a ∈ cols
      · simp [h]
      · simp [h, ih, firstAliasIn]

/-- C3 counterexample: under the claim's own first-alias-in-order rule,
the alias list `["PlaneID", "AircraftID", "ID"]` resolves against the
actual columns `{"AircraftID", "PlaneID"}` to `"PlaneID"`, not to the
claimed `"AircraftID"` — the claim's stated alias order contradicts its
stated outputs (the code's loop order is `["AircraftID", "PlaneID",
"ID"]`). -/
theorem C3_counterexample :
    firstAliasIn ["PlaneID", "AircraftID", "ID"] ["AircraftID", "PlaneID"] =
      some "PlaneID" ∧
    some "PlaneID" ≠ some "AircraftID" := by
  decide

/-- C3 (amended): column resolution in the aircraft transform is
deterministic and decided by alias order — it returns the first alias of
`["AircraftID", "PlaneID", "ID"]` (the order the code writes) present
among the actual columns: `"ID"` against `{"ID", "Model"}` and
`"AircraftID"` against `{"AircraftID", "PlaneID"}`.  The merge's own
aircraft-id resolution instead tries only `PlaneID` before falling back
to `AircraftID` unchecked, so it picks `"PlaneID"` from
`{"AircraftID", "PlaneID"}` and `"AircraftID"` against `{"ID", "Model"}`. -/
theorem C3_resolution_first_alias_amended :
    (∀ cols : List String,
        aircraftIdColChoice cols = firstAliasIn ["AircraftID", "PlaneID", "ID"] cols) ∧
    aircraftIdColChoice ["ID", "Model"] = some "ID" ∧
    aircraftIdColChoice ["AircraftID", "PlaneID"] = some "AircraftID" ∧
    mergeAircraftIdCol ["AircraftID", "PlaneID"] = "PlaneID" ∧
    mergeAircraftIdCol ["ID", "Model"] = "AircraftID" :=
  ⟨fun cols => aircraftIdLoop_eq_firstAliasIn cols _,
   by decide, by decide, by decide, by decide⟩

/-- C4 counterexample: with actual route staging columns
`["Origin", "Destination", "Distance"]` — no `RouteID` present —
resolution does not fail with an error naming the field and tried
aliases: it silently guesses the positionally first column `"Origin"`,
and the DimRoute merge then *succeeds*, inserting a row whose `RouteID`
is the origin city. -/
theorem C4_counterexample :
    mergeRouteIdCol ["Origin", "Destination", "Distance"] = some "Origin" ∧
    mergeDimRoute ⟨["Origin", "Destination", "Distance"],
        [[Val.strV "Paris", Val.strV "Rome", Val.intV 500]]⟩ [] =
      Except.ok [⟨Val.strV "Paris", Val.strV "Paris", Val.strV "Rome", Val.intV 500⟩] :=
  ⟨by rfl, by rfl⟩

/-- C4 (amended): when the preferred alias is absent, resolution never
fails explicitly — the route, payment, flight and booking id resolutions
fall back to the staging table's positionally first column, and the
aircraft id resolution falls back to `"AircraftID"` without checking
presence; a wrong guess surfaces only later, as that one table's merge
statement failing (caught at the per-table boundary), e.g. the
DimAircraft merge errors whenever neither `PlaneID` nor `AircraftID` is
an actual column. -/
theorem C4_fallback_guess_amended (cols : List String) (c0 : String)
    (hR : "RouteID" ∉ cols) (hP : "PaymentID" ∉ cols) (hF : "FlightID" ∉ cols)
    (hB : "BookingID" ∉ cols) (hPl : "PlaneID" ∉ cols) (hA : "AircraftID" ∉ cols)
    (hhead : cols.head? = some c0) :
    mergeRouteIdCol cols = some c0 ∧ mergePaymentIdCol cols = some c0 ∧
    mergeFlightIdCol cols = some c0 ∧ mergeBookingIdCol cols = some c0 ∧
    mergeAircraftIdCol cols = "AircraftID" ∧
    (∀ (rows : List (List Val)) (dim : List AircraftRow),
        mergeDimAircraft ⟨cols, rows⟩ dim =
          Except.error "Invalid column name in Stg_Aircrafts") := by
  refine ⟨?_, ?_, ?_, ?_, ?_, ?_⟩
  · simp [mergeRouteIdCol, hR, hhead]
  · simp [mergePaymentIdCol, hP, hhead]
  · simp [mergeFlightIdCol, hF, hhead]
  · simp [mergeBookingIdCol, hB, hhead]
  · simp [mergeAircraftIdCol, hPl]
  · intro rows dim
    simp [mergeDimAircraft, mergeAircraftIdCol, hPl, hA]

theorem C4_fallback_guess_amended_witness :
    mergeRouteIdCol ["Origin", "Destination", "Distance"] = some "Origin" ∧
    mergePaymentIdCol ["Origin", "Destination", "Distance"] = some "Origin" ∧
    mergeFlightIdCol ["Origin", "Destination", "Distance"] = some "Origin" ∧
    mergeBookingIdCol ["Origin", "Destination", "Distance"] = some "Origin" ∧
    mergeAircraftIdCol ["Origin", "Destination", "Distance"] = "AircraftID" ∧
    (∀ (rows : List (List Val)) (dim : List AircraftRow),
        mergeDimAircraft ⟨["Origin", "Destination", "Distance"], rows⟩ dim =
          Except.error "Invalid column name in Stg_Aircrafts") :=
  C4_fallback_guess_amended ["Origin", "Destination", "Distance"] "Origin"
    (by decide) (by decide) (by decide) (by decide) (by decide) (by decide) (by decide)

theorem zip_filter_pairs {α β : Type} (l : List (α × β)) (p : α → Bool) :
    ((l.map Prod.fst).filter p).zip ((l.filter (fun q => p q.fst)).map Prod.snd) =
      l.filter (fun q => p q.fst) := by
  induction l with
  | nil => rfl
  | cons q t ih =>
      by_cases h : p q.fst
      · simp [List.filter_cons, h, ih]
      · simp [List.filter_cons, h, ih]

/-- Dropping a column that the destination does not have anyway commutes
away under projection to the destination columns. -/
theorem projectCols_dropColumn (dbCols : List String) (df : DataFrame) (f : String)
    (hf : f ∉ dbCols) (hwf : dfWF df) :
    projectCols dbCols (dropColumn df f) = projectCols dbCols df := by
  have hpt : ∀ a : String, (decide (a ∈ dbCols) && decide (a ≠ f)) = decide (a ∈ dbCols) := by
    intro a
    by_cases ha : a ∈ dbCols
    · have : a ≠ f := fun h => hf (h ▸ ha)
      simp [ha, this]
    · simp [ha]
  unfold projectCols dropColumn
  simp only [DataFrame.mk.injEq]
  constructor
  · rw [List.filter_filter]
    exact List.filter_congr (fun a _ => hpt a)
  · rw [List.map_map]
    refine List.map_congr_left (fun r hr => ?_)
    simp only [Function.comp_apply]
    have hzip : (df.cols.filter (fun c0 => decide (c0 ≠ f))).zip
        (((df.cols.zip r).filter (fun q => decide (q.fst ≠ f))).map Prod.snd) =
        (df.cols.zip r).filter (fun q => decide (q.fst ≠ f)) := by
      have h := zip_filter_pairs (df.cols.zip r) (fun c => decide (c ≠ f))
      rw [List.map_fst_zip df.cols r (hwf r hr).symm.le] at h
      exact h
    rw [hzip, List.filter_filter]
    exact congrArg (List.map Prod.snd)
      (List.filter_congr (fun q _ => hpt q.fst))

theorem stagedRecords_dropColumn (dbCols : List String) (df : DataFrame) (f : String)
    (hdb : dbCols ≠ []) (hf : f ∉ dbCols) (hwf : dfWF df) :
    stagedRecords dbCols (dropColumn df f) = stagedRecords dbCols df := by
  have hne : dbCols.isEmpty = false := by
    cases dbCols with
    | nil => exact absurd rfl hdb
    | cons d ds => rfl
  unfold stagedRecords
  simp only [hne, Bool.false_eq_true, if_false]
  rw [projectCols_dropColumn dbCols df f hf hwf]

theorem load_ok_dropped (insertOk : Rec → Option String) (dbCols : List String)
    (name : String) (df : DataFrame) (res : LoadResult)
    (h : load_to_staging insertOk dbCols name df = Except.ok res) :
    res.dropped =
      if dbCols.isEmpty then [] else df.cols.filter (fun c => decide (c ∉ dbCols)) := by
  unfold load_to_staging at h
  dsimp only at h
  cases hloop : insertLoopGo insertOk name
      (if dbCols.isEmpty then df.cols else dbCols) (stagedRecords dbCols df) with
  | error e =>
      rw [hloop] at h
      simp [Except.map] at h
  | ok rows =>
      rw [hloop] at h
      simp only [Except.map, Except.ok.injEq] at h
      rw [← h]

/-- C5: for a destination with catalog columns, the Staging Writer
projects every record to the intersection of its fields and the
destination's columns: a frame column absent from the destination is
recorded in the dropped-columns warning, the staged records are exactly
those of the frame without that column, and the load's outcome (success
or failure, and the loaded table) is identical to loading the frame with
the extra column removed — the extra field never makes the load fail. -/
theorem C5_projection_safety (insertOk : Rec → Option String) (dbCols : List String)
    (name : String) (df : DataFrame) (f : String)
    (hdb : dbCols ≠ []) (hfin : f ∈ df.cols) (hf : f ∉ dbCols) (hwf : dfWF df) :
    (∀ res, load_to_staging insertOk dbCols name df = Except.ok res → f ∈ res.dropped) ∧
    stagedRecords dbCols df = stagedRecords dbCols (dropColumn df f) ∧
    (load_to_staging insertOk dbCols name df).map LoadResult.table =
      (load_to_staging insertOk dbCols name (dropColumn df f)).map LoadResult.table := by
  have hrecs := stagedRecords_dropColumn dbCols df f hdb hf hwf
  have hne : dbCols.isEmpty = false := by
    cases dbCols with
    | nil => exact absurd rfl hdb
    | cons d ds => rfl
  refine ⟨?_, hrecs.symm, ?_⟩
  · intro res hres
    rw [load_ok_dropped insertOk dbCols name df res hres]
    simp only [hne, Bool.false_eq_true, if_false]
    exact List.mem_filter.mpr ⟨hfin, by simpa using hf⟩
  · cases hloop : insertLoopGo insertOk name dbCols (stagedRecords dbCols df) with
    | error e =>
        simp [load_to_staging, hne, hrecs, hloop, Except.map]
    | ok rows =>
        simp [load_to_staging, hne, hrecs, hloop, Except.map]

theorem C5_projection_safety_witness :
    (∀ res, load_to_staging (okOracle "Stg_Customers") ["CustomerID", "Name"]
        "Stg_Customers" ⟨["CustomerID", "Name", "Notes"],
          [[Val.intV 1, Val.strV "Ann", Val.strV "x"]]⟩ = Except.ok res →
      "Notes" ∈ res.dropped) ∧
    stagedRecords ["CustomerID", "Name"]
        ⟨["CustomerID", "Name", "Notes"], [[Val.intV 1, Val.strV "Ann", Val.strV "x"]]⟩ =
      stagedRecords ["CustomerID", "Name"]
        (dropColumn ⟨["CustomerID", "Name", "Notes"],
          [[Val.intV 1, Val.strV "Ann", Val.strV "x"]]⟩ "Notes") ∧
    (load_to_staging (okOracle "Stg_Customers") ["CustomerID", "Name"] "Stg_Customers"
        ⟨["CustomerID", "Name", "Notes"],
          [[Val.intV 1, Val.strV "Ann", Val.strV "x"]]⟩).map LoadResult.table =
      (load_to_staging (okOracle "Stg_Customers") ["CustomerID", "Name"] "Stg_Customers"
        (dropColumn ⟨["CustomerID", "Name", "Notes"],
          [[Val.intV 1, Val.strV "Ann", Val.strV "x"]]⟩ "Notes")).map LoadResult.table :=
  C5_projection_safety (okOracle "Stg_Customers") ["CustomerID", "Name"] "Stg_Customers"
    ⟨["CustomerID", "Name", "Notes"], [[Val.intV 1, Val.strV "Ann", Val.strV "x"]]⟩
    "Notes" (by decide) (by decide) (by decide) (by decide)

theorem insertLoopGo_reject (insertOk : Rec → Option String) (name : String)
    (cols : List String) (recs : List Rec)
    (hex : ∃ r ∈ recs, insertOk r ≠ none) :
    ∃ e : LoadError, insertLoopGo insertOk name cols recs = Except.error e ∧
      e.table = name ∧ e.record ∈ recs ∧ insertOk e.record = some e.msg := by
  induction recs with
  | nil =>
      obtain ⟨r, hr, -⟩ := hex
      exact absurd hr (List.not_mem_nil r)
  | cons r rest ih =>
      cases hk : insertOk r with
      | some msg =>
          refine ⟨⟨name, r, msg⟩, ?_, rfl, List.mem_cons_self r rest, hk⟩
          simp [insertLoopGo, hk]
      | none =>
          have hex' : ∃ r' ∈ rest, insertOk r' ≠ none := by
            obtain ⟨r', hr', hne⟩ := hex
            rcases List.mem_cons.mp hr' with rfl | hmem
            · exact absurd hk hne
            · exact ⟨r', hmem, hne⟩
          obtain ⟨e, he, hn, hm, hs⟩ := ih hex'
          refine ⟨e, ?_, hn, List.mem_cons_of_mem r hm, hs⟩
          simp [insertLoopGo, hk, he, Except.map]

/-- C6: a single rejected record aborts the whole staging load with the
offending record attached to the propagated error, and a staging-load
failure aborts the whole pipeline run — with the customers load
succeeding and the bookings load failing, `main` returns that load error
(no merge runs). -/
theorem C6_record_reject_aborts (insertOk : String → Rec → Option String)
    (catalog : String → List String) (src : Sources) (W : Warehouse) (e : LoadError)
    (hc : ∃ res, load_to_staging (insertOk "Stg_Customers") (catalog "Stg_Customers")
        "Stg_Customers" (transform_oltp1_customers src.customers) = Except.ok res)
    (hb : load_to_staging (insertOk "Stg_Bookings") (catalog "Stg_Bookings")
        "Stg_Bookings" (transform_oltp1_bookings src.bookings) = Except.error e) :
    mainPipeline insertOk catalog src W = Except.error e ∧
    (∀ (iOk : Rec → Option String) (dbCols : List String) (name : String)
        (df : DataFrame), (∃ r ∈ stagedRecords dbCols df, iOk r ≠ none) →
      ∃ e' : LoadError, load_to_staging iOk dbCols name df = Except.error e' ∧
        e'.table = name ∧ e'.record ∈ stagedRecords dbCols df ∧
        iOk e'.record = some e'.msg) := by
  constructor
  · obtain ⟨resC, hcok⟩ := hc
    simp [mainPipeline, stageAll, hcok, hb, Except.map, Bind.bind, Except.bind]
  · intro iOk dbCols name df hex
    obtain ⟨e', he', hn, hm, hs⟩ := insertLoopGo_reject iOk name
      (if dbCols.isEmpty then df.cols else dbCols) (stagedRecords dbCols df) hex
    refine ⟨e', ?_, hn, hm, hs⟩
    unfold load_to_staging
    dsimp only
    rw [he']
    rfl

theorem C6_record_reject_aborts_witness :
    mainPipeline c6Oracle stdCatalog c6Sources emptyWarehouse =
      Except.error ⟨"Stg_Bookings",
        [("BookingID", Val.intV 13), ("CustomerID", Val.intV 2),
         ("FlightID", Val.intV 3)], "constraint violation"⟩ ∧
    (∀ (iOk : Rec → Option String) (dbCols : List String) (name : String)
        (df : DataFrame), (∃ r ∈ stagedRecords dbCols df, iOk r ≠ none) →
      ∃ e' : LoadError, load_to_staging iOk dbCols name df = Except.error e' ∧
        e'.table = name ∧ e'.record ∈ stagedRecords dbCols df ∧
        iOk e'.record = some e'.msg) :=
  C6_record_reject_aborts c6Oracle stdCatalog c6Sources emptyWarehouse
    ⟨"Stg_Bookings",
      [("BookingID", Val.intV 13), ("CustomerID", Val.intV 2),
       ("FlightID", Val.intV 3)], "constraint violation"⟩
    ⟨⟨⟨["CustomerID", "Name"], []⟩, []⟩, by rfl⟩ (by rfl)

/-- C7: a booking staging row whose flight identifier matches no row of
the flight staging table is still merged into FactBooking — the join is
a left-outer lookup, not a filter — and its `RouteID` and aircraft
foreign key are NULL in the inserted fact row. -/
theorem C7_outer_join_null_preservation (stgB stgF : Table)
    (fact : List FactBookingRow) (b : List Val)
    (hB : stgB.cols = stdCatalog "Stg_Bookings")
    (hF : stgF.cols = stdCatalog "Stg_Flights")
    (hb : b ∈ stgB.rows)
    (hnomatch : ∀ f ∈ stgF.rows,
        sqlEq (stgB.get b "FlightID") (stgF.get f "FlightID") = false)
    (hnew : ∀ t ∈ fact, sqlEq t.bookingID (stgB.get b "BookingID") = false) :
    ∃ fact', mergeFactBooking stgB stgF fact = Except.ok fact' ∧
      (⟨stgB.get b "BookingID", stgB.get b "CustomerID", stgB.get b "FlightID",
        Val.null, Val.null, stgB.get b "BookingID", stgB.get b "CustomerID",
        stgB.get b "BookingDate"⟩ : FactBookingRow) ∈ fact' := by
  refine ⟨factUpsert stgB stgF fact, mergeFactBooking_std stgB stgF fact hB hF, ?_⟩
  have hfil : stgF.rows.filter
      (fun f => sqlEq (stgB.get b "FlightID") (stgF.get f "FlightID")) = [] :=
    List.filter_eq_nil_iff.mpr (fun f hf => by simp [hnomatch f hf])
  have hjoin : ((b, none) : List Val × Option (List Val)) ∈ bookingFlightJoin stgB stgF := by
    unfold bookingFlightJoin
    refine List.mem_flatMap.mpr ⟨b, hb, ?_⟩
    simp [hfil]
  unfold factUpsert upsertInsert
  refine List.mem_append.mpr (Or.inr (List.mem_map.mpr ⟨(b, none), ?_, rfl⟩))
  refine List.mem_filter.mpr ⟨hjoin, ?_⟩
  simp only [Bool.not_eq_true']
  rw [List.any_eq_false]
  intro t ht
  simpa using hnew t ht

theorem C7_outer_join_null_preservation_witness :
    ∃ fact', mergeFactBooking
        ⟨stdCatalog "Stg_Bookings",
         [[Val.intV 7, Val.intV 3, Val.intV 9, Val.dateV "2024-01-01"]]⟩
        ⟨stdCatalog "Stg_Flights", []⟩ [] = Except.ok fact' ∧
      (⟨Val.intV 7, Val.intV 3, Val.intV 9, Val.null, Val.null,
        Val.intV 7, Val.intV 3, Val.dateV "2024-01-01"⟩ : FactBookingRow) ∈ fact' := by
  have h := C7_outer_join_null_preservation
    ⟨stdCatalog "Stg_Bookings",
     [[Val.intV 7, Val.intV 3, Val.intV 9, Val.dateV "2024-01-01"]]⟩
    ⟨stdCatalog "Stg_Flights", []⟩ []
    [Val.intV 7, Val.intV 3, Val.intV 9, Val.dateV "2024-01-01"]
    (by rfl) (by rfl) (by decide) (by decide) (by decide)
  simpa using h

/-- C10: every row the FactBooking merge inserts stores the booking's
own `BookingID` as its `PaymentID` and the booking's `CustomerID` as its
`SatisfactionKey`; neither is resolved against the payment or
satisfaction staging tables (which the merge never reads). -/
theorem C10_fact_fk_from_booking (stgB stgF : Table)
    (fact fact' : List FactBookingRow)
    (h : mergeFactBooking stgB stgF fact = Except.ok fact') :
    ∀ t ∈ fact', t ∈ fact ∨
      (t.paymentID = t.bookingID ∧ t.satisfactionKey = t.customerID) := by
  unfold mergeFactBooking at h
  cases hbid : mergeBookingIdCol stgB.cols with
  | none =>
      rw [hbid] at h
      exact absurd h (by simp)
  | some bidCol =>
      rw [hbid] at h
      dsimp only at h
      split at h
      · rw [Except.ok.injEq] at h
        subst h
        intro t ht
        rcases List.mem_append.mp ht with hl | hr
        · exact Or.inl hl
        · obtain ⟨p, -, rfl⟩ := List.mem_map.mp hr
          exact Or.inr ⟨rfl, rfl⟩
      · exact absurd h (by simp)

theorem C10_fact_fk_from_booking_witness :
    (⟨Val.intV 7, Val.intV 3, Val.intV 9, Val.null, Val.null,
      Val.intV 7, Val.intV 3, Val.dateV "2024-01-01"⟩ : FactBookingRow) ∈
        ([] : List FactBookingRow) ∨
    ((⟨Val.intV 7, Val.intV 3, Val.intV 9, Val.null, Val.null,
       Val.intV 7, Val.intV 3, Val.dateV "2024-01-01"⟩ : FactBookingRow).paymentID =
        (⟨Val.intV 7, Val.intV 3, Val.intV 9, Val.null, Val.null,
          Val.intV 7, Val.intV 3, Val.dateV "2024-01-01"⟩ : FactBookingRow).bookingID ∧
     (⟨Val.intV 7, Val.intV 3, Val.intV 9, Val.null, Val.null,
       Val.intV 7, Val.intV 3, Val.dateV "2024-01-01"⟩ : FactBookingRow).satisfactionKey =
        (⟨Val.intV 7, Val.intV 3, Val.intV 9, Val.null, Val.null,
          Val.intV 7, Val.intV 3, Val.dateV "2024-01-01"⟩ : FactBookingRow).customerID) :=
  C10_fact_fk_from_booking
    ⟨stdCatalog "Stg_Bookings",
     [[Val.intV 7, Val.intV 3, Val.intV 9, Val.dateV "2024-01-01"]]⟩
    ⟨stdCatalog "Stg_Flights", []⟩ []
    [⟨Val.intV 7, Val.intV 3, Val.intV 9, Val.null, Val.null,
      Val.intV 7, Val.intV 3, Val.dateV "2024-01-01"⟩] (by rfl)
    ⟨Val.intV 7, Val.intV 3, Val.intV 9, Val.null, Val.null,
     Val.intV 7, Val.intV 3, Val.dateV "2024-01-01"⟩ (by decide)

theorem mapM_valToRat_isNone (vals : List Val) (h : Val.null ∈ vals) :
    vals.mapM valToRat = none := by
  rw [← List.mapM'_eq_mapM]
  induction vals with
  | nil => exact absurd h (List.not_mem_nil _)
  | cons v t ih =>
      rcases List.mem_cons.mp h with rfl | hm
      · simp [List.mapM', valToRat]
      · cases hv : valToRat v <;> simp [List.mapM', hv, ih hm]

theorem mapM_valToRat_intV (ns : List Int) :
    (ns.map Val.intV).mapM valToRat = some (ns.map (fun n => (Int.cast n : ℚ))) := by
  rw [← List.mapM'_eq_mapM]
  induction ns with
  | nil => rfl
  | cons n t ih => simp [List.mapM', valToRat, ih]

theorem satAvg_intV (ns : List Int) :
    satAvg (ns.map Val.intV) = Val.ratV ((ns.map (fun n => (Int.cast n : ℚ))).sum / 14) := by
  unfold satAvg
  rw [mapM_valToRat_intV]

theorem filterMap_valToRat_intV (ns : List Int) :
    (ns.map Val.intV).filterMap valToRat = ns.map (fun n => (Int.cast n : ℚ)) := by
  induction ns with
  | nil => rfl
  | cons n t ih => simp [valToRat, ih]

theorem pandasRowMean_intV (ns : List Int) (h : ns ≠ []) :
    pandasRowMean (ns.map Val.intV) =
      Val.ratV ((ns.map (fun n => (Int.cast n : ℚ))).sum / (ns.length : ℚ)) := by
  unfold pandasRowMean
  dsimp only
  rw [filterMap_valToRat_intV, List.length_map]
  rw [if_neg (fun hc => h (List.length_eq_zero.mp hc))]

/-- C8 counterexample: the dimension merge's derived average is
NULL-propagating `sum / 14`, not a mean over the resolving subset —
with thirteen ratings present and one NULL it yields NULL (the subset
mean would be 36/13); and even with all fourteen fields present at
`[1,2,3,4,5,1,2,3,4,5,1,2,3,4]` the value is 40/14 = 20/7, not the
claimed 37/14. -/
theorem C8_counterexample :
    satAvg [Val.intV 1, Val.intV 2, Val.intV 3, Val.intV 4, Val.intV 5,
            Val.intV 1, Val.intV 2, Val.intV 3, Val.intV 4, Val.intV 5,
            Val.intV 1, Val.intV 2, Val.intV 3, Val.null] = Val.null ∧
    pandasRowMean [Val.intV 1, Val.intV 2, Val.intV 3, Val.intV 4, Val.intV 5,
                   Val.intV 1, Val.intV 2, Val.intV 3, Val.intV 4, Val.intV 5,
                   Val.intV 1, Val.intV 2, Val.intV 3] = Val.ratV (36 / 13) ∧
    satAvg [Val.intV 1, Val.intV 2, Val.intV 3, Val.intV 4, Val.intV 5,
            Val.intV 1, Val.intV 2, Val.intV 3, Val.intV 4, Val.intV 5,
            Val.intV 1, Val.intV 2, Val.intV 3, Val.intV 4] = Val.ratV (20 / 7) ∧
    (20 : ℚ) / 7 ≠ 37 / 14 := by
  refine ⟨by decide, ?_, ?_, by norm_num⟩
  · rw [show ([Val.intV 1, Val.intV 2, Val.intV 3, Val.intV 4, Val.intV 5,
        Val.intV 1, Val.intV 2, Val.intV 3, Val.intV 4, Val.intV 5,
        Val.intV 1, Val.intV 2, Val.intV 3] : List Val) =
          List.map Val.intV [1, 2, 3, 4, 5, 1, 2, 3, 4, 5, 1, 2, 3] from rfl,
      pandasRowMean_intV _ (by decide)]
    simp only [List.map_cons, List.map_nil, List.sum_cons, List.sum_nil,
      List.length_cons, List.length_nil, Val.ratV.injEq]
    push_cast
    norm_num
  · rw [show ([Val.intV 1, Val.intV 2, Val.intV 3, Val.intV 4, Val.intV 5,
        Val.intV 1, Val.intV 2, Val.intV 3, Val.intV 4, Val.intV 5,
        Val.intV 1, Val.intV 2, Val.intV 3, Val.intV 4] : List Val) =
          List.map Val.intV [1, 2, 3, 4, 5, 1, 2, 3, 4, 5, 1, 2, 3, 4] from rfl,
      satAvg_intV]
    simp only [List.map_cons, List.map_nil, List.sum_cons, List.sum_nil, Val.ratV.injEq]
    push_cast
    norm_num

/-- C8 (amended): the satisfaction dimension's derived average divides
the sum of the fourteen rating fields by 14 and propagates NULL — it is
NULL whenever any of the fourteen cells is NULL, never a subset mean;
with all fourteen present at `[1,2,3,4,5,1,2,3,4,5,1,2,3,4]` it equals
their true mean 20/7.  A mean over whatever subset of the rating columns
resolves exists only in the CSV transform, whose `AverageRating` cell is
`pandasRowMean` over the present columns — the unweighted mean of the
present values, not a division by fourteen — and which the dimension
merge then ignores. -/
theorem C8_sat_average_amended (vals : List Val) (hnull : Val.null ∈ vals) :
    satAvg vals = Val.null ∧
    satAvg [Val.intV 1, Val.intV 2, Val.intV 3, Val.intV 4, Val.intV 5,
            Val.intV 1, Val.intV 2, Val.intV 3, Val.intV 4, Val.intV 5,
            Val.intV 1, Val.intV 2, Val.intV 3, Val.intV 4] = Val.ratV (20 / 7) ∧
    (∀ ns : List Int, ns ≠ [] → pandasRowMean (ns.map Val.intV) =
        Val.ratV ((ns.map (fun n => (Int.cast n : ℚ))).sum / (ns.length : ℚ))) := by
  refine ⟨?_, ?_, pandasRowMean_intV⟩
  · unfold satAvg
    rw [mapM_valToRat_isNone vals hnull]
  · rw [show ([Val.intV 1, Val.intV 2, Val.intV 3, Val.intV 4, Val.intV 5,
        Val.intV 1, Val.intV 2, Val.intV 3, Val.intV 4, Val.intV 5,
        Val.intV 1, Val.intV 2, Val.intV 3, Val.intV 4] : List Val) =
          List.map Val.intV [1, 2, 3, 4, 5, 1, 2, 3, 4, 5, 1, 2, 3, 4] from rfl,
      satAvg_intV]
    simp only [List.map_cons, List.map_nil, List.sum_cons, List.sum_nil, Val.ratV.injEq]
    push_cast
    norm_num

theorem C8_sat_average_amended_witness :
    satAvg [Val.intV 1, Val.intV 2, Val.intV 3, Val.intV 4, Val.intV 5,
            Val.intV 1, Val.intV 2, Val.intV 3, Val.intV 4, Val.intV 5,
            Val.intV 1, Val.intV 2, Val.intV 3, Val.null] = Val.null ∧
    satAvg [Val.intV 1, Val.intV 2, Val.intV 3, Val.intV 4, Val.intV 5,
            Val.intV 1, Val.intV 2, Val.intV 3, Val.intV 4, Val.intV 5,
            Val.intV 1, Val.intV 2, Val.intV 3, Val.intV 4] = Val.ratV (20 / 7) ∧
    (∀ ns : List Int, ns ≠ [] → pandasRowMean (ns.map Val.intV) =
        Val.ratV ((ns.map (fun n => (Int.cast n : ℚ))).sum / (ns.length : ℚ))) :=
  C8_sat_average_amended
    [Val.intV 1, Val.intV 2, Val.intV 3, Val.intV 4, Val.intV 5,
     Val.intV 1, Val.intV 2, Val.intV 3, Val.intV 4, Val.intV 5,
     Val.intV 1, Val.intV 2, Val.intV 3, Val.null] (by decide)

theorem upsertInsert_nil {σ ρ : Type} (keyOf : ρ → Val) (srcKey : σ → Val)
    (mk : σ → ρ) (tgt : List ρ) :
    upsertInsert keyOf srcKey mk [] tgt = tgt := by
  simp [upsertInsert]

theorem upsertUpdate_nil {σ ρ : Type} (keyOf : ρ → Val) (srcKey : σ → Val)
    (mk : σ → ρ) (upd : ρ → σ → ρ) (tgt : List ρ) :
    upsertUpdate keyOf srcKey mk upd [] tgt = tgt := by
  simp [upsertUpdate]

/-- C9: the Staging Writer accepts an empty batch as a valid no-op load
(no error; the staging table ends up with zero rows), and the Merger
treats empty staging tables as nothing to merge: with every staging row
set empty, `merge_to_dim_fact` leaves all targets untouched and logs no
error. -/
theorem C9_empty_batches_noop (insertOk : Rec → Option String)
    (dbCols : List String) (name : String) (df : DataFrame) (W : Warehouse)
    (hdf : df.rows = [])
    (hcols : stdStagingCols W)
    (hempty : W.stgCustomers.rows = [] ∧ W.stgBookings.rows = [] ∧
      W.stgPayments.rows = [] ∧ W.stgAircrafts.rows = [] ∧
      W.stgFlights.rows = [] ∧ W.stgRoutes.rows = [] ∧
      W.stgSatisfaction.rows = []) :
    (∃ res, load_to_staging insertOk dbCols name df = Except.ok res ∧
        res.table.rows = []) ∧
    merge_to_dim_fact W = (W, []) := by
  constructor
  · cases hdb : dbCols.isEmpty with
    | true =>
        refine ⟨⟨⟨df.cols, []⟩, []⟩, ?_, rfl⟩
        simp [load_to_staging, stagedRecords, hdb, hdf, insertLoopGo, Except.map]
    | false =>
        refine ⟨⟨⟨dbCols, []⟩, df.cols.filter (fun c => decide (c ∉ dbCols))⟩, ?_, rfl⟩
        simp [load_to_staging, stagedRecords, projectCols, hdb, hdf, insertLoopGo,
          Except.map]
  · rw [merge_once_std W hcols]
    obtain ⟨e1, e2, e3, e4, e5, e6, e7⟩ := hempty
    simp [custUpsert, airUpsert, routeUpsert, flightUpsert, payUpsert, satUpsert,
      factUpsert, upsertInsert, upsertUpdate, bookingFlightJoin,
      e1, e2, e3, e4, e5, e6, e7]

theorem C9_empty_batches_noop_witness :
    (∃ res, load_to_staging (okOracle "Stg_Customers") (stdCatalog "Stg_Customers")
        "Stg_Customers" ⟨["CustomerID", "Name"], []⟩ = Except.ok res ∧
        res.table.rows = []) ∧
    merge_to_dim_fact c9W = (c9W, []) :=
  C9_empty_batches_noop (okOracle "Stg_Customers") (stdCatalog "Stg_Customers")
    "Stg_Customers" ⟨["CustomerID", "Name"], []⟩ c9W rfl (by decide)
    ⟨rfl, rfl, rfl, rfl, rfl, rfl, rfl⟩
